import Mathlib

/-!
Verification of the notification fan-out engine and summary renderer of the
emergency controller (backend/src/controllers/emergency.controller.js) and of
the frontend HTTP client wrapper (frontend/lib/api.ts).

Strings are modelled as lists of characters (`Str`); JavaScript template
literals become explicit list concatenations, JavaScript truthiness of
optional string and number fields is modelled by `strOr`, `natOr`, `joinOr`,
and `String.prototype.trim` by `jsTrim`.
-/

set_option maxRecDepth 8192

abbrev Str := List Char

/-- Whitespace predicate used by the model of JavaScript `trim`. -/
def isWS (c : Char) : Bool :=
  decide (c = ' ') || decide (c = '\n') || decide (c = '\t') || decide (c = '\r')

/-- Model of JavaScript `String.prototype.trim`. -/
def jsTrim (s : Str) : Str :=
  ((s.dropWhile isWS).reverse.dropWhile isWS).reverse

/-- Decimal rendering of a natural number, as JavaScript renders a number. -/
def natStr (n : Nat) : Str := (Nat.repr n).toList

/-- Model of the JavaScript idiom `v || d` for an optional string field:
`undefined` and the empty string are falsy. -/
def strOr (v : Option Str) (d : Str) : Str :=
  match v with
  | none => d
  | some s => if s.isEmpty then d else s

/-- Model of the JavaScript idiom `v || d` for an optional numeric field:
`undefined` and `0` are falsy. -/
def natOr (v : Option Nat) (d : Str) : Str :=
  match v with
  | none => d
  | some n => if n = 0 then d else natStr n

/-- Model of interpolating a possibly-undefined string field directly into a
template literal: `undefined` renders as the text "undefined". -/
def rawOpt (v : Option Str) : Str :=
  match v with
  | none => "undefined".toList
  | some s => s

/-- Model of `Array.prototype.map(f).join(sep)` composed: `sepJoin sep l`
joins the already-mapped list `l` with separator `sep`. -/
def sepJoin (sep : Str) : List Str → Str
  | [] => []
  | [s] => s
  | s :: ss => s ++ sep ++ sepJoin sep ss

/-- Model of the JavaScript idiom `xs?.join(", ") || d`. -/
def joinOr (v : Option (List Str)) (sep : Str) (d : Str) : Str :=
  match v with
  | none => d
  | some l => if (sepJoin sep l).isEmpty then d else sepJoin sep l

/-- Boolean test that `n` is a prefix of `h` (character lists). -/
def isPre : Str → Str → Bool
  | [], _ => true
  | _ :: _, [] => false
  | a :: as, b :: bs => decide (a = b) && isPre as bs

/-- Boolean test that `n` occurs as a contiguous substring of `h`. -/
def hasSub (n : Str) : Str → Bool
  | [] => n.isEmpty
  | c :: t => isPre n (c :: t) || hasSub n t

theorem isPre_self_app (t r : Str) : isPre t (t ++ r) = true := by
  induction t with
  | nil => simp [isPre]
  | cons a as ih => simp [isPre, ih]

theorem isPre_mono (t : Str) : ∀ a b : Str, isPre t a = true → isPre t (a ++ b) = true := by
  induction t with
  | nil => intro a b _; simp [isPre]
  | cons x xs ih =>
    intro a b h
    cases a with
    | nil => simp [isPre] at h
    | cons y ys =>
      simp [isPre] at h
      simp [isPre, h.1, ih ys b h.2]

theorem isPre_cancel (a : Str) : ∀ b c : Str, isPre b c = true → isPre (a ++ b) (a ++ c) = true := by
  induction a with
  | nil => intro b c h; simpa using h
  | cons x xs ih => intro b c h; simp [isPre, ih b c h]

theorem hasSub_of_isPre (n : Str) : ∀ h : Str, isPre n h = true → hasSub n h = true := by
  intro h hp
  cases h with
  | nil =>
    cases n with
    | nil => simp [hasSub]
    | cons c cs => simp [isPre] at hp
  | cons c t => simp [hasSub, hp]

theorem hasSub_nil_needle (h : Str) : hasSub [] h = true := by
  cases h with
  | nil => simp [hasSub]
  | cons c t => simp [hasSub, isPre]

theorem hasSub_tail (n : Str) (x : Char) (l : Str) (h : hasSub n (x :: l) = false) :
    hasSub n l = false := by
  simp [hasSub] at h
  exact h.2

theorem hs_l (n : Str) : ∀ a b : Str, hasSub n a = true → hasSub n (a ++ b) = true := by
  intro a
  induction a with
  | nil =>
    intro b h
    cases n with
    | nil => exact hasSub_nil_needle b
    | cons c cs => simp [hasSub] at h
  | cons x xs ih =>
    intro b h
    simp only [hasSub] at h
    rcases Bool.or_eq_true_iff.mp h with hp | ht
    · have : isPre n ((x :: xs) ++ b) = true := isPre_mono n (x :: xs) b hp
      simp only [List.cons_append] at this ⊢
      simp [hasSub, this]
    · simp only [List.cons_append, hasSub]
      simp [ih b ht]

theorem hs_r (n : Str) (a : Str) : ∀ b : Str, hasSub n b = true → hasSub n (a ++ b) = true := by
  induction a with
  | nil => intro b h; simpa using h
  | cons x xs ih =>
    intro b h
    simp only [List.cons_append, hasSub]
    simp [ih b h]

theorem preL4 (t : Str) : ∀ (a : Str) (c : Char) (b : Str),
    isPre t (a ++ c :: b) = true → isPre t a = true ∨ c ∈ t := by
  induction t with
  | nil => intro a c b _; left; simp [isPre]
  | cons x xs ih =>
    intro a c b h
    cases a with
    | nil =>
      right
      simp only [List.nil_append, isPre] at h
      have : x = c := by
        by_contra hne
        simp [hne] at h
      simp [this]
    | cons y ys =>
      simp only [List.cons_append, isPre, Bool.and_eq_true, decide_eq_true_eq] at h
      rcases ih ys c b h.2 with hp | hm
      · left; simp [isPre, h.1, hp]
      · right; simp [hm]

theorem hasSub_cons_block (t : Str) (c : Char) (s : Str) (ht : t ≠ [])
    (hc : c ∉ t) (hs : hasSub t s = false) : hasSub t (c :: s) = false := by
  cases t with
  | nil => exact absurd rfl ht
  | cons x xs =>
    simp only [hasSub, Bool.or_eq_false_iff]
    refine ⟨?_, hs⟩
    simp only [isPre, Bool.and_eq_false_iff]
    left
    simp only [decide_eq_false_iff_not]
    intro hxc
    exact hc (by simp [hxc.symm])

theorem hasSub_benign_block (t : Str) (ht : t ≠ []) :
    ∀ d b : Str, (∀ c ∈ d, c ∉ t) → hasSub t b = false → hasSub t (d ++ b) = false := by
  intro d
  induction d with
  | nil => intro b _ hb; simpa using hb
  | cons c cs ih =>
    intro b hd hb
    simp only [List.cons_append]
    refine hasSub_cons_block t c (cs ++ b) ht (hd c (by simp)) ?_
    exact ih b (fun x hx => hd x (by simp [hx])) hb

theorem hasSub_glue_cons (t : Str) (ht : t ≠ []) :
    ∀ (a : Str) (c : Char) (b : Str), hasSub t a = false → hasSub t (c :: b) = false →
    c ∉ t → hasSub t (a ++ c :: b) = false := by
  intro a
  induction a with
  | nil => intro c b _ hcb _; simpa using hcb
  | cons x xs ih =>
    intro c b ha hcb hc
    simp only [List.cons_append, hasSub, Bool.or_eq_false_iff]
    constructor
    · cases hp : isPre t (x :: (xs ++ c :: b)) with
      | false => rfl
      | true =>
        exfalso
        have hp' : isPre t ((x :: xs) ++ c :: b) = true := by simpa using hp
        rcases preL4 t (x :: xs) c b hp' with hpre | hmem
        · have : hasSub t (x :: xs) = true := hasSub_of_isPre t (x :: xs) hpre
          rw [ha] at this; exact Bool.false_ne_true this
        · exact hc hmem
    · exact ih c b (hasSub_tail t x xs ha) hcb hc

/-- Glue two regions when the right region is empty or starts with a character
that does not occur in the needle. -/
theorem hasSub_glue (t : Str) (ht : t ≠ []) (a b : Str) (ha : hasSub t a = false)
    (hb : hasSub t b = false)
    (hh : match b with | [] => True | c :: _ => c ∉ t) :
    hasSub t (a ++ b) = false := by
  cases b with
  | nil => simpa using ha
  | cons c bs => exact hasSub_glue_cons t ht a c bs ha hb hh

theorem hasSub_trim (t s : Str) (h : hasSub t (jsTrim s) = true) : hasSub t s = true := by
  have step : ∀ u : Str, hasSub t (u.dropWhile isWS) = true → hasSub t u = true := by
    intro u hu
    have hdecomp : u.takeWhile isWS ++ u.dropWhile isWS = u :=
      List.takeWhile_append_dropWhile isWS u
    have := hs_r t (u.takeWhile isWS) (u.dropWhile isWS) hu
    rwa [hdecomp] at this
  have hrev : ∀ u : Str, hasSub t (u.reverse.dropWhile isWS).reverse = true → hasSub t u = true := by
    intro u hu
    have hdecomp : u.reverse.takeWhile isWS ++ u.reverse.dropWhile isWS = u.reverse :=
      List.takeWhile_append_dropWhile isWS u.reverse
    have hu2 : u = (u.reverse.dropWhile isWS).reverse ++ (u.reverse.takeWhile isWS).reverse := by
      conv_lhs => rw [← List.reverse_reverse u, ← hdecomp]
      rw [List.reverse_append]
    rw [hu2]
    exact hs_l t (u.reverse.dropWhile isWS).reverse (u.reverse.takeWhile isWS).reverse hu
  exact step s (hrev (s.dropWhile isWS) h)

theorem trim_decomp (l m e : Str) (hl : l.dropWhile isWS ≠ [])
    (he : e.reverse.dropWhile isWS ≠ []) :
    jsTrim (l ++ (m ++ e)) =
      l.dropWhile isWS ++ (m ++ (e.reverse.dropWhile isWS).reverse) := by
  unfold jsTrim
  have h1 : (l ++ (m ++ e)).dropWhile isWS = l.dropWhile isWS ++ (m ++ e) := by
    rw [List.dropWhile_append]
    simp [List.isEmpty_iff, hl]
  rw [h1]
  have h2 : (l.dropWhile isWS ++ (m ++ e)).reverse
      = e.reverse ++ (m.reverse ++ (l.dropWhile isWS).reverse) := by
    simp [List.reverse_append]
  rw [h2]
  have h3 : (e.reverse ++ (m.reverse ++ (l.dropWhile isWS).reverse)).dropWhile isWS
      = e.reverse.dropWhile isWS ++ (m.reverse ++ (l.dropWhile isWS).reverse) := by
    rw [List.dropWhile_append]
    simp [List.isEmpty_iff, he]
  rw [h3]
  simp [List.reverse_append]

theorem sepJoin_mem {α : Type} (t sep : Str) (f : α → Str) :
    ∀ (l : List α) (x : α), x ∈ l → hasSub t (f x) = true →
    hasSub t (sepJoin sep (l.map f)) = true := by
  intro l
  induction l with
  | nil => intro x hx; simp at hx
  | cons y ys ih =>
    intro x hx hfx
    cases ys with
    | nil =>
      simp at hx
      subst hx
      simpa [sepJoin] using hfx
    | cons z zs =>
      rcases List.mem_cons.mp hx with hx | hx
      · subst hx
        simp only [List.map_cons, sepJoin]
        exact hs_l t (f x ++ sep) (sepJoin sep (f z :: List.map f zs))
          (hs_l t (f x) sep hfx)
      · simp only [List.map_cons, sepJoin]
        have hrest : hasSub t (sepJoin sep (f z :: List.map f zs)) = true := by
          simpa using ih x hx hfx
        exact hs_r t (f y ++ sep) _ hrest

/-! ## Data model (documents as they reach the controller) -/

structure UserT where
  name : Str
  email : Str
deriving DecidableEq

structure ProfileT where
  blood_group : Option Str
  age : Option Nat
  gender : Option Str
  allergies : Option (List Str)
  existing_conditions : Option (List Str)
  family_doctor_email : Option (List Str)
deriving DecidableEq

structure MedT where
  medicine_name : Str
  dosage : Str
  frequency : Str
  timing : List Str
  stock_count : Nat
deriving DecidableEq

/-- A vital-sign record; `recordedOn` is the locale rendering of
`new Date(v.timestamp).toLocaleString()`, supplied as an input string since
date formatting is an environment concern. Numeric vitals are modelled as
naturals rendered in decimal. -/
structure VitalT where
  bp_systolic : Nat
  bp_diastolic : Nat
  sugar : Nat
  temperature : Nat
  weight : Nat
  recordedOn : Str
deriving DecidableEq

structure ContactT where
  cid : Option Str
  name : Str
  relation : Str
  phone : Option Str
  email : Option Str
deriving DecidableEq

structure FamilyT where
  name : Str
  emergency_contacts : List ContactT
deriving DecidableEq

/-! ## Summary renderer (the `summaryText` template literal of `shareSummary`) -/

/-- Separator `"\n"` used by `join("\n")`. -/
def nl : Str := ['\n']

/-- Separator `"\n\n"` used by `join("\n\n")`. -/
def nl2 : Str := ['\n', '\n']

/-- The profile ternary of the PERSONAL INFORMATION section. -/
def profileBlock : Option ProfileT → Str
  | some p =>
      "Blood Group: ".toList ++ strOr p.blood_group ("Not Provided".toList)
        ++ "\nAge: ".toList ++ natOr p.age ("Not Provided".toList)
        ++ "\nGender: ".toList ++ strOr p.gender ("Not Provided".toList)
  | none => "No profile information available".toList

/-- The profile ternary of the MEDICAL INFORMATION section. -/
def medicalBlock : Option ProfileT → Str
  | some p =>
      "Allergies: ".toList ++ joinOr p.allergies (", ".toList) ("None reported".toList)
        ++ "\nExisting Conditions: ".toList
        ++ joinOr p.existing_conditions (", ".toList) ("None reported".toList)
        ++ "\nFamily Doctor Email: ".toList
        ++ joinOr p.family_doctor_email (", ".toList) ("None registered".toList)
  | none => "No medical information available".toList

/-- One medication entry of the CURRENT MEDICATIONS list. -/
def medLine (m : MedT) : Str :=
  "- ".toList ++ m.medicine_name ++ " (".toList ++ m.dosage
    ++ ")\n    Frequency: ".toList ++ m.frequency
    ++ "\n    Timing: ".toList ++ sepJoin (", ".toList) m.timing
    ++ "\n    Stock: ".toList ++ natStr m.stock_count ++ " units remaining".toList

/-- The medications ternary: itemized list or the no-medications message. -/
def medsStr (meds : List MedT) : Str :=
  if meds.length > 0 then sepJoin nl2 (meds.map medLine)
  else "No current medications".toList

/-- The vitals ternary: the RECENT VITAL SIGNS block for the most recent
record, or the empty string. -/
def vitalsStr : List VitalT → Str
  | [] => []
  | v :: _ =>
      "\nRECENT VITAL SIGNS\n----------------\nBlood Pressure: ".toList
        ++ natStr v.bp_systolic ++ "/".toList ++ natStr v.bp_diastolic
        ++ " mmHg\nBlood Sugar: ".toList ++ natStr v.sugar
        ++ " mg/dL\nTemperature: ".toList ++ natStr v.temperature
        ++ "°F\nWeight: ".toList ++ natStr v.weight
        ++ " kg\nRecorded on: ".toList ++ v.recordedOn

/-- One emergency-contact entry of the EMERGENCY CONTACTS list. -/
def contactLine (c : ContactT) : Str :=
  "- ".toList ++ c.name ++ " (".toList ++ c.relation
    ++ ")\n    Phone: ".toList ++ strOr c.phone ("Not provided".toList)
    ++ "\n    Email: ".toList ++ rawOpt c.email

/-- The EMERGENCY CONTACTS list joined by newline. -/
def contactsStr (cs : List ContactT) : Str := sepJoin nl (cs.map contactLine)

/-- Literal up to the generated-on timestamp. -/
def headLit : Str :=
  "\nHEALTH SUMMARY REPORT\n--------------------\nGenerated on: ".toList

def midLit1 : Str := "\n\nPERSONAL INFORMATION\n------------------\nName: ".toList

def midLit2 : Str := "\nEmail: ".toList

def midLit3 : Str := "\nFamily Group: ".toList

def midLit4 : Str := "\n".toList

def midLit5 : Str := "\n\nMEDICAL INFORMATION\n-----------------\n".toList

def midLit6 : Str := "\n\nCURRENT MEDICATIONS\n-----------------\n".toList

def midLit7 : Str := "\n\n".toList

def midLit8 : Str := "\n\nEMERGENCY CONTACTS\n----------------\n".toList

/-- Literal from the end of the contacts list to the end of the template. -/
def tailLit : Str :=
  ("\n\nEMERGENCY INSTRUCTIONS\n--------------------\n"
    ++ "1. This is an automated health summary. Please contact emergency services if needed.\n"
    ++ "2. Contact family doctor or nearest emergency room for medical assistance.\n"
    ++ "3. Always verify medication information with healthcare provider.\n"
    ++ "4. For immediate assistance, contact the primary emergency contact listed above.\n\n"
    ++ "This is an automated emergency health summary. Please do not reply.\n    ").toList

/-- The interpolated middle of the template, between `headLit` and `tailLit`. -/
def midPart (u : UserT) (profile : Option ProfileT) (meds : List MedT)
    (fam : FamilyT) (vs : List VitalT) (now : Str) : Str :=
  now ++ midLit1 ++ u.name ++ midLit2 ++ u.email ++ midLit3 ++ fam.name
    ++ midLit4 ++ profileBlock profile ++ midLit5 ++ medicalBlock profile
    ++ midLit6 ++ medsStr meds ++ midLit7 ++ vitalsStr vs ++ midLit8
    ++ contactsStr fam.emergency_contacts

/-- The whole template literal, before `trim`. -/
def summaryBody (u : UserT) (profile : Option ProfileT) (meds : List MedT)
    (fam : FamilyT) (vs : List VitalT) (now : Str) : Str :=
  headLit ++ (midPart u profile meds fam vs now ++ tailLit)

/-- The rendered summary: the template literal after `.trim()`. -/
def summaryText (u : UserT) (profile : Option ProfileT) (meds : List MedT)
    (fam : FamilyT) (vs : List VitalT) (now : Str) : Str :=
  jsTrim (summaryBody u profile meds fam vs now)

/-! ## Mail-sending collaborator and HTTP-style results -/

/-- Modelled from the spec: `sendEmergencyEmail` (utils/mailer.js) is not in
the sources; per the external-interface contract, a send either succeeds with
no error field or fails with a `DeliveryError` reason. -/
inductive SendOutcome
  | ok
  | err (reason : Str)
deriving DecidableEq

/-- The mail collaborator: `send(to, subject, body)`. -/
abbrev Send := Str → Str → Str → SendOutcome

inductive Body
  | errOnly (error : Str)
  | errFlag (error : Str)
  | okShare (message : Str) (sentTo : List Str) (failures : Option (List (Str × Str)))
  | okMail (message : Str) (recipients : List Str)
  | okInfo (message : Str) (sharedWith : Str)
deriving DecidableEq

structure Res where
  status : Nat
  body : Body
deriving DecidableEq

/-- One delivery outcome, as produced by the per-promise `.catch` handler of
`shareSummary`: a resolved send has no error field, a caught rejection is
replaced by `{email, error}`. -/
inductive Outcome
  | sent
  | failed (email : Str) (reason : Str)
deriving DecidableEq

def Outcome.hasErr : Outcome → Bool
  | .sent => false
  | .failed _ _ => true

def Outcome.failPair : Outcome → Option (Str × Str)
  | .sent => none
  | .failed e r => some (e, r)

/-- Email of a contact whose email is known present. -/
def emailOf (c : ContactT) : Str := c.email.getD []

/-- The `shareSummary` contact filter: `c.email && c.email.includes("@")`. -/
def validEmail (c : ContactT) : Bool :=
  match c.email with
  | none => false
  | some e => (!e.isEmpty) && decide ('@' ∈ e)

/-! ## The handlers. Each returns the HTTP-style response paired with the list
of recipients on which the mail collaborator was invoked. -/

/-- The subject line of the share-summary email. -/
def ssSubject (u : UserT) : Str := "🩺 Emergency Health Summary for ".toList ++ u.name

/-- One delivery attempt of `shareSummary`: the send with its per-promise
`.catch` converting a rejection into a `{email, error}` value. -/
def ssAttempt (u : UserT) (profile : Option ProfileT) (meds : List MedT)
    (fam : FamilyT) (vs : List VitalT) (now : Str) (send : Send)
    (c : ContactT) : Outcome :=
  match send (emailOf c) (ssSubject u) (summaryText u profile meds fam vs now) with
  | SendOutcome.ok => Outcome.sent
  | SendOutcome.err m => Outcome.failed (emailOf c) m

/-- POST /api/emergency/share-summary. -/
def shareSummaryHandler (u : UserT) (profile : Option ProfileT) (meds : List MedT)
    (family : Option FamilyT) (vs : List VitalT) (now : Str) (send : Send) :
    Res × List Str :=
  match family with
  | none => (⟨400, Body.errOnly ("No emergency contacts found".toList)⟩, [])
  | some fam =>
    if fam.emergency_contacts.isEmpty then
      (⟨400, Body.errOnly ("No emergency contacts found".toList)⟩, [])
    else
      let valid := fam.emergency_contacts.filter validEmail
      if valid.isEmpty then
        (⟨400, Body.errFlag ("No valid emergency contact emails found".toList)⟩, [])
      else
        let results := valid.map (ssAttempt u profile meds fam vs now send)
        let failures := results.filterMap Outcome.failPair
        let log := valid.map emailOf
        if failures.length > 0 ∧ failures.length = valid.length then
          (⟨500, Body.errFlag ("Failed to send summary email. Please try again.".toList)⟩, log)
        else
          let sentTo := ((valid.zip results).filter
            (fun p => !p.2.hasErr)).map (fun p => emailOf p.1)
          let failField := if failures.length > 0 then some failures else none
          (⟨200, Body.okShare ("Health summary shared with emergency contacts".toList)
            sentTo failField⟩, log)

/-- A request-body entry of `mailEmergencyContacts`: a JSON value that is a
string or something else. -/
inductive JsVal
  | jstr (s : Str)
  | other
deriving DecidableEq

/-- The filter `typeof e === 'string' && e.includes("@")`, keeping the string. -/
def toEmail : JsVal → Option Str
  | .jstr s => if '@' ∈ s then some s else none
  | .other => none

def emailsOf (cs : List JsVal) : List Str := cs.filterMap toEmail

/-- The email body of `mailEmergencyContacts`. -/
def mailText (u : UserT) (profile : Option ProfileT) (meds : List MedT)
    (now : Str) : Str :=
  jsTrim (("\nEmergency Health Summary for ".toList ++ u.name
    ++ "\n\nEmail: ".toList ++ u.email
    ++ "\nBlood Group: ".toList
    ++ strOr (profile.bind ProfileT.blood_group) ("Not Provided".toList)
    ++ "\nAllergies: ".toList
    ++ joinOr (profile.bind ProfileT.allergies) (", ".toList) ("None".toList)
    ++ "\nConditions: ".toList
    ++ joinOr (profile.bind ProfileT.existing_conditions) (", ".toList) ("None".toList)
    ++ "\n\nMedications:\n".toList ++ medsShort meds
    ++ "\n\nSent on: ".toList ++ now ++ "\n    ".toList))
where
  medsShort (meds : List MedT) : Str :=
    if meds.length > 0 then
      sepJoin nl (meds.map fun m =>
        "- ".toList ++ m.medicine_name ++ " (".toList ++ m.dosage ++ ")".toList)
    else "None".toList

/-- POST /api/emergency/mail-contacts. `Promise.all` over the per-recipient
sends rejects as soon as any send rejects; every send has already been
invoked when the join is awaited, and the rejection reason of the aggregate
is modelled as the reason of the first failing recipient in list order. -/
def mailContactsHandler (u : UserT) (profile : Option ProfileT) (meds : List MedT)
    (now : Str) (contacts : Option (List JsVal)) (send : Send) : Res × List Str :=
  match contacts with
  | none => (⟨400, Body.errOnly ("No contacts provided.".toList)⟩, [])
  | some cs =>
    if cs.isEmpty then (⟨400, Body.errOnly ("No contacts provided.".toList)⟩, [])
    else
      let emails := emailsOf cs
      if emails.isEmpty then
        (⟨400, Body.errOnly ("No valid email addresses found.".toList)⟩, [])
      else
        let text := mailText u profile meds now
        let firstErr := emails.findSome? fun e =>
          match send e ("🩺 Emergency Medical Info".toList) text with
          | SendOutcome.ok => none
          | SendOutcome.err m => some m
        match firstErr with
        | some m => (⟨500, Body.errOnly m⟩, emails)
        | none =>
          (⟨200, Body.okMail ("Emergency info sent successfully.".toList) emails⟩, emails)

/-- JavaScript `a || b` over two possibly-undefined strings, as used for
`contact?.email || process.env.DEFAULT_EMERGENCY_EMAIL`. -/
def jsOrO (a b : Option Str) : Option Str :=
  match a with
  | none => b
  | some s => if s.isEmpty then b else some s

/-- The email body of `shareEmergencyInfo`. -/
def infoText (u : UserT) (profile : Option ProfileT) (meds : List MedT)
    (contactEmail : Str) : Str :=
  jsTrim (("\nEmergency Information for ".toList ++ u.name
    ++ "\n\nBlood Group: ".toList
    ++ strOr (profile.bind ProfileT.blood_group) ("Not Provided".toList)
    ++ "\nAllergies: ".toList
    ++ joinOr (profile.bind ProfileT.allergies) (", ".toList) ("None".toList)
    ++ "\nExisting Conditions: ".toList
    ++ joinOr (profile.bind ProfileT.existing_conditions) (", ".toList) ("None".toList)
    ++ "\n\nMedications:\n".toList
    ++ (if meds.length > 0 then
          sepJoin nl (meds.map fun m =>
            "- ".toList ++ m.medicine_name ++ " (".toList ++ m.dosage ++ ")".toList)
        else "None".toList)
    ++ "\n\nSent to: ".toList ++ contactEmail ++ "\n    ".toList))

/-- The lookup `family?.emergency_contacts.find(c => c._id?.toString() === contactId)`. -/
def lookupContact (contactId : Str) (family : Option FamilyT) : Option ContactT :=
  match family with
  | none => none
  | some f => f.emergency_contacts.find? fun c => decide (c.cid = some contactId)

/-- The subject line of the share-with-contact email. -/
def infoSubject : Str := "Emergency Medical Info".toList

/-- POST /api/emergency/share/:contactId. -/
def shareInfoHandler (contactId : Str) (u : UserT) (profile : Option ProfileT)
    (meds : List MedT) (family : Option FamilyT) (defaultEmail : Option Str)
    (send : Send) : Res × List Str :=
  let contact : Option ContactT := lookupContact contactId family
  match jsOrO (contact.bind ContactT.email) defaultEmail with
  | none => (⟨400, Body.errOnly ("Emergency contact email not found.".toList)⟩, [])
  | some e =>
    if e.isEmpty then
      (⟨400, Body.errOnly ("Emergency contact email not found.".toList)⟩, [])
    else
      let text := infoText u profile meds e
      match send e infoSubject text with
      | SendOutcome.err m => (⟨500, Body.errOnly m⟩, [e])
      | SendOutcome.ok =>
        (⟨200, Body.okInfo ("Emergency info emailed successfully".toList) e⟩, [e])

/-! ## Frontend ApiClient.request (frontend/lib/api.ts) -/

/-- A JavaScript value thrown by `fetch` or `response.json()`: an Error object
with a message, or anything else. -/
inductive ThrownVal
  | errObj (message : Str)
  | nonErrVal
deriving DecidableEq

/-- A parsed JSON response body; only its `error` field is inspected by the
client, the rest is returned opaquely. -/
structure JVal where
  errField : Option Str
deriving DecidableEq

/-- The observable behaviour of `fetch` plus `response.json()` for one call. -/
inductive FetchOutcome
  | netErr (e : ThrownVal)
  | jsonErr (ok : Bool) (status : Nat) (statusText : Str) (e : ThrownVal)
  | okJson (ok : Bool) (status : Nat) (statusText : Str) (data : JVal)
deriving DecidableEq

structure ApiResp where
  success : Bool
  data : Option JVal
  error : Option Str
deriving DecidableEq

def errToMsg : ThrownVal → Str
  | .errObj m => m
  | .nonErrVal => "Network error".toList

/-- ApiClient.request: the try/catch around `fetch` and `response.json`,
returning a normalized `{success, data?, error?}` value. -/
def requestFn (f : FetchOutcome) : ApiResp :=
  match f with
  | .netErr e => ⟨false, none, some (errToMsg e)⟩
  | .jsonErr _ _ _ e => ⟨false, none, some (errToMsg e)⟩
  | .okJson ok st stx d =>
    if ok then ⟨true, some d, none⟩
    else ⟨false, none,
      some (strOr d.errField
        ("HTTP ".toList ++ natStr st ++ ": ".toList ++ stx))⟩

/-! ## Benign-input predicates used to rule out needle injection through
user-controlled fields when proving that a heading or marker does NOT occur
in the rendered report. -/

/-- The head of `b` (if any) does not occur in `t`. -/
def headNotB (t : Str) : Str → Bool
  | [] => true
  | c :: _ => !(decide (c ∈ t))

/-- A dynamic slot value is nonempty and shares no character with the needle. -/
def slotOkB (t s : Str) : Bool := (!s.isEmpty) && s.all fun c => !(decide (c ∈ t))

def medOkB (t : Str) (m : MedT) : Bool :=
  slotOkB t m.medicine_name && (slotOkB t m.dosage && (slotOkB t m.frequency &&
    (slotOkB t (sepJoin (", ".toList) m.timing) && slotOkB t (natStr m.stock_count))))

def vitalOkB (t : Str) (v : VitalT) : Bool :=
  slotOkB t (natStr v.bp_systolic) && (slotOkB t (natStr v.bp_diastolic) &&
    (slotOkB t (natStr v.sugar) && (slotOkB t (natStr v.temperature) &&
      (slotOkB t (natStr v.weight) && slotOkB t v.recordedOn))))

def contactOkB (t : Str) (c : ContactT) : Bool :=
  slotOkB t c.name && (slotOkB t c.relation &&
    (slotOkB t (strOr c.phone ("Not provided".toList)) && slotOkB t (rawOpt c.email)))

def inputOkB (t : Str) (u : UserT) (profile : Option ProfileT) (meds : List MedT)
    (fam : FamilyT) (vs : List VitalT) (now : Str) : Bool :=
  match profile with
  | none => false
  | some p =>
    slotOkB t now && (slotOkB t u.name && (slotOkB t u.email && (slotOkB t fam.name &&
      (slotOkB t (strOr p.blood_group ("Not Provided".toList)) &&
      (slotOkB t (natOr p.age ("Not Provided".toList)) &&
      (slotOkB t (strOr p.gender ("Not Provided".toList)) &&
      (slotOkB t (joinOr p.allergies (", ".toList) ("None reported".toList)) &&
      (slotOkB t (joinOr p.existing_conditions (", ".toList) ("None reported".toList)) &&
      (slotOkB t (joinOr p.family_doctor_email (", ".toList) ("None registered".toList)) &&
      (meds.all (medOkB t) && (vs.all (vitalOkB t) &&
        fam.emergency_contacts.all (contactOkB t))))))))))))

/-- `midLit5` with its final newline peeled off. -/
def m5aLit : Str := "\n\nMEDICAL INFORMATION\n-----------------".toList

/-- `midLit6` with its final newline peeled off. -/
def m6aLit : Str := "\n\nCURRENT MEDICATIONS\n-----------------".toList

def baseLits : List Str :=
  [headLit, midLit1, midLit2, midLit3, midLit4, m5aLit, m6aLit, midLit7, midLit8,
   tailLit, "Blood Group: ".toList, "\nAge: ".toList, "\nGender: ".toList,
   "Allergies: ".toList, "\nExisting Conditions: ".toList,
   "\nFamily Doctor Email: ".toList, "No current medications".toList,
   "- ".toList, " (".toList, ")\n    Phone: ".toList, "\n    Email: ".toList, nl]

def medLits : List Str :=
  [")\n    Frequency: ".toList, "\n    Timing: ".toList, "\n    Stock: ".toList,
   " units remaining".toList, nl2]

def vitLits : List Str :=
  ["\nRECENT VITAL SIGNS\n----------------\nBlood Pressure: ".toList, "/".toList,
   " mmHg\nBlood Sugar: ".toList, " mg/dL\nTemperature: ".toList,
   "°F\nWeight: ".toList, " kg\nRecorded on: ".toList]

def litsOkB (t : Str) (medsEmpty vitsEmpty : Bool) : Bool :=
  baseLits.all (fun L => !(hasSub t L))
    && (headNotB t ("- ".toList) && (headNotB t ("Blood Group: ".toList)
    && ((medsEmpty || medLits.all (fun L => !(hasSub t L)))
    && (vitsEmpty || vitLits.all (fun L => !(hasSub t L))))))

theorem slotOk_ne (t s : Str) (h : slotOkB t s = true) : s ≠ [] := by
  intro he
  subst he
  simp [slotOkB] at h

theorem slotOk_chars (t s : Str) (h : slotOkB t s = true) : ∀ c ∈ s, c ∉ t := by
  simp only [slotOkB, Bool.and_eq_true, List.all_eq_true] at h
  intro c hc
  have := h.2 c hc
  simpa using this

theorem slotOk_headNotB (t s : Str) (h : slotOkB t s = true) (r : Str) :
    headNotB t (s ++ r) = true := by
  cases s with
  | nil => exact absurd rfl (slotOk_ne t [] h)
  | cons c cs =>
    have hc : c ∉ t := slotOk_chars t (c :: cs) h c (by simp)
    simp [headNotB, hc]

theorem headNotB_append (t a b : Str) (ha : headNotB t a = true)
    (hb : headNotB t b = true) : headNotB t (a ++ b) = true := by
  cases a with
  | nil => simpa using hb
  | cons c cs => simpa [headNotB] using ha

theorem headNotB_append1 (t a b : Str) (ha : headNotB t a = true) (hne : a ≠ []) :
    headNotB t (a ++ b) = true := by
  cases a with
  | nil => exact absurd rfl hne
  | cons c cs => simpa [headNotB] using ha

theorem headNotB_cons (t : Str) (c : Char) (s : Str) (hc : c ∉ t) :
    headNotB t (c :: s) = true := by
  simp [headNotB, hc]

/-- Derive a head condition from a computed `head?`. -/
theorem headNotB_of_headq (t s : Str) (c : Char) (hh : s.head? = some c)
    (hc : c ∉ t) : headNotB t s = true := by
  cases s with
  | nil => simp at hh
  | cons a s2 =>
    simp only [List.head?_cons, Option.some.injEq] at hh
    subst hh
    simp [headNotB, hc]

/-- Glue two regions when the right region is empty or starts with a character
not occurring in the needle, in Boolean form. -/
theorem hasSub_glueB (t : Str) (ht : t ≠ []) (a b : Str) (ha : hasSub t a = false)
    (hb : hasSub t b = false) (hh : headNotB t b = true) :
    hasSub t (a ++ b) = false := by
  cases b with
  | nil => simpa using ha
  | cons c bs =>
    refine hasSub_glue_cons t ht a c bs ha hb ?_
    simpa [headNotB] using hh

/-- A benign slot followed by a clean region is clean. -/
theorem hasSub_slot_block (t : Str) (ht : t ≠ []) (s b : Str)
    (hs : slotOkB t s = true) (hb : hasSub t b = false) :
    hasSub t (s ++ b) = false :=
  hasSub_benign_block t ht s b (slotOk_chars t s hs) hb

theorem noSub_contactLine (t : Str) (ht : t ≠ []) (c : ContactT) (rest : Str)
    (hc : contactOkB t c = true)
    (l1 : hasSub t ("- ".toList) = false) (l2 : hasSub t (" (".toList) = false)
    (l3 : hasSub t (")\n    Phone: ".toList) = false)
    (l4 : hasSub t ("\n    Email: ".toList) = false)
    (hrest : hasSub t rest = false) :
    hasSub t (contactLine c ++ rest) = false := by
  simp only [contactOkB, Bool.and_eq_true] at hc
  obtain ⟨hname, hrel, hphone, hemail⟩ := hc
  have e0 : hasSub t (rawOpt c.email ++ rest) = false :=
    hasSub_slot_block t ht _ _ hemail hrest
  have e1 : hasSub t ("\n    Email: ".toList ++ (rawOpt c.email ++ rest)) = false :=
    hasSub_glueB t ht _ _ l4 e0 (slotOk_headNotB t _ hemail rest)
  have e2 := hasSub_slot_block t ht _ _ hphone e1
  have e3 := hasSub_glueB t ht (")\n    Phone: ".toList) _ l3 e2
    (slotOk_headNotB t _ hphone _)
  have e4 := hasSub_slot_block t ht _ _ hrel e3
  have e5 := hasSub_glueB t ht (" (".toList) _ l2 e4
    (slotOk_headNotB t _ hrel _)
  have e6 := hasSub_slot_block t ht _ _ hname e5
  have e7 := hasSub_glueB t ht ("- ".toList) _ l1 e6
    (slotOk_headNotB t _ hname _)
  simpa only [contactLine, List.append_assoc] using e7

theorem headNot_contactsStr (t : Str) (hd : headNotB t ("- ".toList) = true) :
    ∀ cs : List ContactT, headNotB t (contactsStr cs) = true := by
  intro cs
  cases cs with
  | nil => simp [contactsStr, sepJoin, headNotB]
  | cons c cs2 =>
    cases cs2 with
    | nil =>
      simp only [contactsStr, List.map_cons, List.map_nil, sepJoin, contactLine,
        List.append_assoc]
      exact headNotB_append1 t _ _ hd (by decide)
    | cons c2 cs3 =>
      simp only [contactsStr, List.map_cons, sepJoin, contactLine, List.append_assoc]
      exact headNotB_append1 t _ _ hd (by decide)

theorem noSub_contactsJoin (t : Str) (ht : t ≠ []) (hnl : ('\n' : Char) ∉ t)
    (l1 : hasSub t ("- ".toList) = false) (l2 : hasSub t (" (".toList) = false)
    (l3 : hasSub t (")\n    Phone: ".toList) = false)
    (l4 : hasSub t ("\n    Email: ".toList) = false) :
    ∀ (cs : List ContactT) (rest : Str), cs.all (contactOkB t) = true →
    hasSub t rest = false → hasSub t (contactsStr cs ++ rest) = false := by
  intro cs
  induction cs with
  | nil => intro rest _ hrest; simpa [contactsStr, sepJoin] using hrest
  | cons c cs2 ih =>
    intro rest hall hrest
    simp only [List.all_cons, Bool.and_eq_true] at hall
    obtain ⟨hc, hall2⟩ := hall
    cases cs2 with
    | nil =>
      simp only [contactsStr, List.map_cons, List.map_nil, sepJoin]
      exact noSub_contactLine t ht c rest hc l1 l2 l3 l4 hrest
    | cons c2 cs3 =>
      have inner : hasSub t (contactsStr (c2 :: cs3) ++ rest) = false :=
        ih rest hall2 hrest
      have inner2 : hasSub t ('\n' :: (contactsStr (c2 :: cs3) ++ rest)) = false :=
        hasSub_cons_block t '\n' _ ht hnl inner
      have main : hasSub t (contactLine c ++ ('\n' :: (contactsStr (c2 :: cs3) ++ rest))) = false :=
        noSub_contactLine t ht c _ hc l1 l2 l3 l4 inner2
      have hre : contactsStr (c :: c2 :: cs3) ++ rest
          = contactLine c ++ ('\n' :: (contactsStr (c2 :: cs3) ++ rest)) := by
        simp [contactsStr, sepJoin, nl, List.append_assoc]
      rw [hre]
      exact main

theorem noSub_medLine (t : Str) (ht : t ≠ []) (m : MedT) (rest : Str)
    (hm : medOkB t m = true)
    (l1 : hasSub t ("- ".toList) = false) (l2 : hasSub t (" (".toList) = false)
    (l5 : hasSub t (")\n    Frequency: ".toList) = false)
    (l6 : hasSub t ("\n    Timing: ".toList) = false)
    (l7 : hasSub t ("\n    Stock: ".toList) = false)
    (l8 : hasSub t (" units remaining".toList) = false)
    (hrest : hasSub t rest = false) (hhr : headNotB t rest = true) :
    hasSub t (medLine m ++ rest) = false := by
  simp only [medOkB, Bool.and_eq_true] at hm
  obtain ⟨hname, hdos, hfreq, htim, hstock⟩ := hm
  have u0 : hasSub t (" units remaining".toList ++ rest) = false :=
    hasSub_glueB t ht _ _ l8 hrest hhr
  have u1 := hasSub_slot_block t ht _ _ hstock u0
  have u2 := hasSub_glueB t ht ("\n    Stock: ".toList) _ l7 u1
    (slotOk_headNotB t _ hstock _)
  have u3 := hasSub_slot_block t ht _ _ htim u2
  have u4 := hasSub_glueB t ht ("\n    Timing: ".toList) _ l6 u3
    (slotOk_headNotB t _ htim _)
  have u5 := hasSub_slot_block t ht _ _ hfreq u4
  have u6 := hasSub_glueB t ht (")\n    Frequency: ".toList) _ l5 u5
    (slotOk_headNotB t _ hfreq _)
  have u7 := hasSub_slot_block t ht _ _ hdos u6
  have u8 := hasSub_glueB t ht (" (".toList) _ l2 u7
    (slotOk_headNotB t _ hdos _)
  have u9 := hasSub_slot_block t ht _ _ hname u8
  have u10 := hasSub_glueB t ht ("- ".toList) _ l1 u9
    (slotOk_headNotB t _ hname _)
  simpa only [medLine, List.append_assoc] using u10

theorem noSub_medsJoin (t : Str) (ht : t ≠ []) (hnl : ('\n' : Char) ∉ t)
    (l1 : hasSub t ("- ".toList) = false) (l2 : hasSub t (" (".toList) = false)
    (l5 : hasSub t (")\n    Frequency: ".toList) = false)
    (l6 : hasSub t ("\n    Timing: ".toList) = false)
    (l7 : hasSub t ("\n    Stock: ".toList) = false)
    (l8 : hasSub t (" units remaining".toList) = false) :
    ∀ (meds : List MedT) (rest : Str), meds.all (medOkB t) = true →
    hasSub t rest = false → headNotB t rest = true →
    hasSub t (sepJoin nl2 (meds.map medLine) ++ rest) = false := by
  intro meds
  induction meds with
  | nil => intro rest _ hrest _; simpa [sepJoin] using hrest
  | cons m ms ih =>
    intro rest hall hrest hhr
    simp only [List.all_cons, Bool.and_eq_true] at hall
    obtain ⟨hm, hall2⟩ := hall
    cases ms with
    | nil =>
      simp only [List.map_cons, List.map_nil, sepJoin]
      exact noSub_medLine t ht m rest hm l1 l2 l5 l6 l7 l8 hrest hhr
    | cons m2 ms2 =>
      have inner : hasSub t (sepJoin nl2 ((m2 :: ms2).map medLine) ++ rest) = false :=
        ih rest hall2 hrest hhr
      have inner2 : hasSub t ('\n' :: (sepJoin nl2 ((m2 :: ms2).map medLine) ++ rest)) = false :=
        hasSub_cons_block t '\n' _ ht hnl inner
      have inner3 : hasSub t ('\n' :: '\n' :: (sepJoin nl2 ((m2 :: ms2).map medLine) ++ rest)) = false :=
        hasSub_cons_block t '\n' _ ht hnl inner2
      have main := noSub_medLine t ht m _ hm l1 l2 l5 l6 l7 l8 inner3
        (headNotB_cons t '\n' _ hnl)
      have hre : sepJoin nl2 ((m :: m2 :: ms2).map medLine) ++ rest
          = medLine m ++ ('\n' :: '\n' :: (sepJoin nl2 ((m2 :: ms2).map medLine) ++ rest)) := by
        simp [sepJoin, nl2, List.append_assoc]
      rw [hre]
      exact main

theorem noSub_medsRegion (t : Str) (ht : t ≠ []) (hnl : ('\n' : Char) ∉ t)
    (l1 : hasSub t ("- ".toList) = false) (l2 : hasSub t (" (".toList) = false)
    (lmsg : hasSub t ("No current medications".toList) = false)
    (meds : List MedT) (rest : Str)
    (hml : medLits.all (fun L => !(hasSub t L)) = true ∨ meds = [])
    (hall : meds.all (medOkB t) = true)
    (hrest : hasSub t rest = false) (hhr : headNotB t rest = true) :
    hasSub t (medsStr meds ++ rest) = false := by
  cases meds with
  | nil =>
    have hms : medsStr [] = "No current medications".toList := by simp [medsStr]
    rw [hms]
    exact hasSub_glueB t ht _ _ lmsg hrest hhr
  | cons m ms =>
    have hml2 : medLits.all (fun L => !(hasSub t L)) = true := by
      rcases hml with h | h
      · exact h
      · exact absurd h (by simp)
    simp only [medLits, List.all_cons, List.all_nil, Bool.and_eq_true,
      Bool.not_eq_true'] at hml2
    obtain ⟨l5, l6, l7, l8, lnl2, -⟩ := hml2
    have hms : medsStr (m :: ms) = sepJoin nl2 ((m :: ms).map medLine) := by
      simp [medsStr]
    rw [hms]
    exact noSub_medsJoin t ht hnl l1 l2 l5 l6 l7 l8 (m :: ms) rest hall hrest hhr

theorem noSub_profileBlockR (t : Str) (ht : t ≠ []) (p : ProfileT) (rest : Str)
    (hbg : slotOkB t (strOr p.blood_group ("Not Provided".toList)) = true)
    (hage : slotOkB t (natOr p.age ("Not Provided".toList)) = true)
    (hgen : slotOkB t (strOr p.gender ("Not Provided".toList)) = true)
    (lbg : hasSub t ("Blood Group: ".toList) = false)
    (lage : hasSub t ("\nAge: ".toList) = false)
    (lgen : hasSub t ("\nGender: ".toList) = false)
    (hrest : hasSub t rest = false) :
    hasSub t (profileBlock (some p) ++ rest) = false := by
  have g0 := hasSub_slot_block t ht _ _ hgen hrest
  have g1 := hasSub_glueB t ht ("\nGender: ".toList) _ lgen g0
    (slotOk_headNotB t _ hgen _)
  have g2 := hasSub_slot_block t ht _ _ hage g1
  have g3 := hasSub_glueB t ht ("\nAge: ".toList) _ lage g2
    (slotOk_headNotB t _ hage _)
  have g4 := hasSub_slot_block t ht _ _ hbg g3
  have g5 := hasSub_glueB t ht ("Blood Group: ".toList) _ lbg g4
    (slotOk_headNotB t _ hbg _)
  simpa only [profileBlock, List.append_assoc] using g5

theorem noSub_medicalBlockR (t : Str) (ht : t ≠ []) (p : ProfileT) (rest : Str)
    (hal : slotOkB t (joinOr p.allergies (", ".toList) ("None reported".toList)) = true)
    (hco : slotOkB t (joinOr p.existing_conditions (", ".toList) ("None reported".toList)) = true)
    (hdoc : slotOkB t (joinOr p.family_doctor_email (", ".toList) ("None registered".toList)) = true)
    (lal : hasSub t ("Allergies: ".toList) = false)
    (lco : hasSub t ("\nExisting Conditions: ".toList) = false)
    (ldoc : hasSub t ("\nFamily Doctor Email: ".toList) = false)
    (hrest : hasSub t rest = false) :
    hasSub t (medicalBlock (some p) ++ rest) = false := by
  have g0 := hasSub_slot_block t ht _ _ hdoc hrest
  have g1 := hasSub_glueB t ht ("\nFamily Doctor Email: ".toList) _ ldoc g0
    (slotOk_headNotB t _ hdoc _)
  have g2 := hasSub_slot_block t ht _ _ hco g1
  have g3 := hasSub_glueB t ht ("\nExisting Conditions: ".toList) _ lco g2
    (slotOk_headNotB t _ hco _)
  have g4 := hasSub_slot_block t ht _ _ hal g3
  have g5 := hasSub_glueB t ht ("Allergies: ".toList) _ lal g4
    (slotOk_headNotB t _ hal _)
  simpa only [medicalBlock, List.append_assoc] using g5

theorem headNot_profileBlock (t : Str) (p : ProfileT)
    (hb : headNotB t ("Blood Group: ".toList) = true) :
    headNotB t (profileBlock (some p)) = true := by
  simp only [profileBlock, List.append_assoc]
  exact headNotB_append1 t _ _ hb (by decide)

theorem noSub_vitalsRegion (t : Str) (ht : t ≠ []) (vs : List VitalT) (rest : Str)
    (hall : vs.all (vitalOkB t) = true)
    (hvl : vitLits.all (fun L => !(hasSub t L)) = true ∨ vs = [])
    (hrest : hasSub t rest = false) :
    hasSub t (vitalsStr vs ++ rest) = false := by
  cases vs with
  | nil => simpa [vitalsStr] using hrest
  | cons v tl =>
    have hvl2 : vitLits.all (fun L => !(hasSub t L)) = true := by
      rcases hvl with h | h
      · exact h
      · exact absurd h (by simp)
    simp only [vitLits, List.all_cons, List.all_nil, Bool.and_eq_true,
      Bool.not_eq_true'] at hvl2
    obtain ⟨lv0, lv1, lv2, lv3, lv4, lv5, -⟩ := hvl2
    have hv : vitalOkB t v = true := by
      simp only [List.all_cons, Bool.and_eq_true] at hall
      exact hall.1
    simp only [vitalOkB, Bool.and_eq_true] at hv
    obtain ⟨hsys, hdia, hsug, htmp, hwt, hrec⟩ := hv
    have w0 := hasSub_slot_block t ht _ _ hrec hrest
    have w1 := hasSub_glueB t ht (" kg\nRecorded on: ".toList) _ lv5 w0
      (slotOk_headNotB t _ hrec _)
    have w2 := hasSub_slot_block t ht _ _ hwt w1
    have w3 := hasSub_glueB t ht ("°F\nWeight: ".toList) _ lv4 w2
      (slotOk_headNotB t _ hwt _)
    have w4 := hasSub_slot_block t ht _ _ htmp w3
    have w5 := hasSub_glueB t ht (" mg/dL\nTemperature: ".toList) _ lv3 w4
      (slotOk_headNotB t _ htmp _)
    have w6 := hasSub_slot_block t ht _ _ hsug w5
    have w7 := hasSub_glueB t ht (" mmHg\nBlood Sugar: ".toList) _ lv2 w6
      (slotOk_headNotB t _ hsug _)
    have w8 := hasSub_slot_block t ht _ _ hdia w7
    have w9 := hasSub_glueB t ht ("/".toList) _ lv1 w8
      (slotOk_headNotB t _ hdia _)
    have w10 := hasSub_slot_block t ht _ _ hsys w9
    have w11 := hasSub_glueB t ht
      ("\nRECENT VITAL SIGNS\n----------------\nBlood Pressure: ".toList) _
      lv0 w10 (slotOk_headNotB t _ hsys _)
    simpa only [vitalsStr, List.append_assoc] using w11

theorem headNot_vitalsStr (t : Str) (hnl : ('\n' : Char) ∉ t) :
    ∀ vs : List VitalT, headNotB t (vitalsStr vs) = true := by
  intro vs
  cases vs with
  | nil => simp [vitalsStr, headNotB]
  | cons v tl =>
    simp only [vitalsStr, List.append_assoc]
    exact headNotB_append1 t _ _
      (headNotB_of_headq t _ '\n' (by decide) hnl) (by decide)

/-- Master lemma: for a benign input (no dynamic slot shares a character with
the needle) and a needle that occurs in none of the active template literals
and contains no newline, the rendered summary does not contain the needle. -/
theorem noSub_summaryText (t : Str) (ht : t ≠ []) (hnl : ('\n' : Char) ∉ t)
    (u : UserT) (profile : Option ProfileT) (meds : List MedT) (fam : FamilyT)
    (vs : List VitalT) (now : Str)
    (hin : inputOkB t u profile meds fam vs now = true)
    (hlits : litsOkB t meds.isEmpty vs.isEmpty = true) :
    hasSub t (summaryText u profile meds fam vs now) = false := by
  cases profile with
  | none => simp [inputOkB] at hin
  | some p =>
  simp only [inputOkB, Bool.and_eq_true] at hin
  obtain ⟨hnow, hname, hemail, hfname, hbg, hage, hgen, hal, hco, hdoc,
    hmedsAll, hvitsAll, hconAll⟩ := hin
  simp only [litsOkB, Bool.and_eq_true] at hlits
  obtain ⟨hbase, hd_dash, hd_bg, hmedl, hvitl⟩ := hlits
  simp only [baseLits, List.all_cons, List.all_nil, Bool.and_eq_true,
    Bool.not_eq_true'] at hbase
  obtain ⟨h_headLit, h_m1, h_m2, h_m3, h_m4, h_m5a, h_m6a, h_m7, h_m8, h_tail,
    h_bgl, h_agel, h_genl, h_all, h_excl, h_fdl, h_msg, h_dash, h_paren,
    h_phonel, h_emaill, h_nll, -⟩ := hbase
  have hmedOr : medLits.all (fun L => !(hasSub t L)) = true ∨ meds = [] := by
    cases meds with
    | nil => exact Or.inr rfl
    | cons m ms => left; simpa using hmedl
  have hvitOr : vitLits.all (fun L => !(hasSub t L)) = true ∨ vs = [] := by
    cases vs with
    | nil => exact Or.inr rfl
    | cons v tl => left; simpa using hvitl
  set C := fam.emergency_contacts with hC
  have hnTail : headNotB t tailLit = true :=
    headNotB_of_headq t tailLit '\n' (by decide) hnl
  have s1 : hasSub t tailLit = false := h_tail
  have s2 : hasSub t (contactsStr C ++ tailLit) = false :=
    noSub_contactsJoin t ht hnl h_dash h_paren h_phonel h_emaill C tailLit hconAll s1
  have hn2 : headNotB t (contactsStr C ++ tailLit) = true :=
    headNotB_append t _ _ (headNot_contactsStr t hd_dash C) hnTail
  have s3 : hasSub t (midLit8 ++ (contactsStr C ++ tailLit)) = false :=
    hasSub_glueB t ht _ _ h_m8 s2 hn2
  have hn3 : headNotB t (midLit8 ++ (contactsStr C ++ tailLit)) = true :=
    headNotB_append1 t _ _ (headNotB_of_headq t midLit8 '\n' (by decide) hnl) (by decide)
  have s4 : hasSub t (vitalsStr vs ++ (midLit8 ++ (contactsStr C ++ tailLit))) = false :=
    noSub_vitalsRegion t ht vs _ hvitsAll hvitOr s3
  have hn4 : headNotB t (vitalsStr vs ++ (midLit8 ++ (contactsStr C ++ tailLit))) = true :=
    headNotB_append t _ _ (headNot_vitalsStr t hnl vs) hn3
  have s5 : hasSub t (midLit7 ++ (vitalsStr vs ++ (midLit8 ++ (contactsStr C ++ tailLit)))) = false :=
    hasSub_glueB t ht _ _ h_m7 s4 hn4
  have hn5 : headNotB t (midLit7 ++ (vitalsStr vs ++ (midLit8 ++ (contactsStr C ++ tailLit)))) = true :=
    headNotB_append1 t _ _ (headNotB_of_headq t midLit7 '\n' (by decide) hnl) (by decide)
  have s6 : hasSub t (medsStr meds ++ (midLit7 ++ (vitalsStr vs ++ (midLit8 ++ (contactsStr C ++ tailLit))))) = false :=
    noSub_medsRegion t ht hnl h_dash h_paren h_msg meds _ hmedOr hmedsAll s5 hn5
  have s6b : hasSub t ('\n' :: (medsStr meds ++ (midLit7 ++ (vitalsStr vs ++ (midLit8 ++ (contactsStr C ++ tailLit)))))) = false :=
    hasSub_cons_block t '\n' _ ht hnl s6
  have s7 : hasSub t (m6aLit ++ ('\n' :: (medsStr meds ++ (midLit7 ++ (vitalsStr vs ++ (midLit8 ++ (contactsStr C ++ tailLit))))))) = false :=
    hasSub_glueB t ht _ _ h_m6a s6b (headNotB_cons t '\n' _ hnl)
  have hn7 : headNotB t (m6aLit ++ ('\n' :: (medsStr meds ++ (midLit7 ++ (vitalsStr vs ++ (midLit8 ++ (contactsStr C ++ tailLit))))))) = true :=
    headNotB_append1 t _ _ (headNotB_of_headq t m6aLit '\n' (by decide) hnl) (by decide)
  have s8 : hasSub t (medicalBlock (some p) ++ (m6aLit ++ ('\n' :: (medsStr meds ++ (midLit7 ++ (vitalsStr vs ++ (midLit8 ++ (contactsStr C ++ tailLit)))))))) = false :=
    noSub_medicalBlockR t ht p _ hal hco hdoc h_all h_excl h_fdl s7
  have s8b : hasSub t ('\n' :: (medicalBlock (some p) ++ (m6aLit ++ ('\n' :: (medsStr meds ++ (midLit7 ++ (vitalsStr vs ++ (midLit8 ++ (contactsStr C ++ tailLit))))))))) = false :=
    hasSub_cons_block t '\n' _ ht hnl s8
  have s9 : hasSub t (m5aLit ++ ('\n' :: (medicalBlock (some p) ++ (m6aLit ++ ('\n' :: (medsStr meds ++ (midLit7 ++ (vitalsStr vs ++ (midLit8 ++ (contactsStr C ++ tailLit)))))))))) = false :=
    hasSub_glueB t ht _ _ h_m5a s8b (headNotB_cons t '\n' _ hnl)
  have hn9 : headNotB t (m5aLit ++ ('\n' :: (medicalBlock (some p) ++ (m6aLit ++ ('\n' :: (medsStr meds ++ (midLit7 ++ (vitalsStr vs ++ (midLit8 ++ (contactsStr C ++ tailLit)))))))))) = true :=
    headNotB_append1 t _ _ (headNotB_of_headq t m5aLit '\n' (by decide) hnl) (by decide)
  have s10 : hasSub t (profileBlock (some p) ++ (m5aLit ++ ('\n' :: (medicalBlock (some p) ++ (m6aLit ++ ('\n' :: (medsStr meds ++ (midLit7 ++ (vitalsStr vs ++ (midLit8 ++ (contactsStr C ++ tailLit))))))))))) = false :=
    noSub_profileBlockR t ht p _ hbg hage hgen h_bgl h_agel h_genl s9
  have hn10 : headNotB t (profileBlock (some p) ++ (m5aLit ++ ('\n' :: (medicalBlock (some p) ++ (m6aLit ++ ('\n' :: (medsStr meds ++ (midLit7 ++ (vitalsStr vs ++ (midLit8 ++ (contactsStr C ++ tailLit))))))))))) = true :=
    headNotB_append t _ _ (headNot_profileBlock t p hd_bg) hn9
  have s11 := hasSub_glueB t ht midLit4 _ h_m4 s10 hn10
  have s12 := hasSub_slot_block t ht _ _ hfname s11
  have s13 := hasSub_glueB t ht midLit3 _ h_m3 s12
    (slotOk_headNotB t _ hfname _)
  have s14 := hasSub_slot_block t ht _ _ hemail s13
  have s15 := hasSub_glueB t ht midLit2 _ h_m2 s14
    (slotOk_headNotB t _ hemail _)
  have s16 := hasSub_slot_block t ht _ _ hname s15
  have s17 := hasSub_glueB t ht midLit1 _ h_m1 s16
    (slotOk_headNotB t _ hname _)
  have s18 := hasSub_slot_block t ht _ _ hnow s17
  have s19 := hasSub_glueB t ht headLit _ h_headLit s18
    (slotOk_headNotB t _ hnow _)
  have hbody : hasSub t (summaryBody u (some p) meds fam vs now) = false := by
    have m5peel : midLit5 = m5aLit ++ ['\n'] := by decide
    have m6peel : midLit6 = m6aLit ++ ['\n'] := by decide
    have req : summaryBody u (some p) meds fam vs now
        = headLit ++ (now ++ (midLit1 ++ (u.name ++ (midLit2 ++ (u.email ++ (midLit3 ++ (fam.name ++ (midLit4 ++ (profileBlock (some p) ++ (m5aLit ++ ('\n' :: (medicalBlock (some p) ++ (m6aLit ++ ('\n' :: (medsStr meds ++ (midLit7 ++ (vitalsStr vs ++ (midLit8 ++ (contactsStr C ++ tailLit))))))))))))))))))) := by
      simp [summaryBody, midPart, hC, m5peel, m6peel, List.append_assoc]
    rw [req]
    exact s19
  cases hfin : hasSub t (summaryText u (some p) meds fam vs now) with
  | false => rfl
  | true =>
    have hb : hasSub t (summaryBody u (some p) meds fam vs now) = true :=
      hasSub_trim t _ (by simpa [summaryText] using hfin)
    rw [hbody] at hb
    exact (Bool.false_ne_true hb).elim

/-! ## Positive containment: navigation into the rendered summary -/

theorem hasSub_here (t r : Str) : hasSub t (t ++ r) = true :=
  hasSub_of_isPre t _ (isPre_self_app t r)

theorem hasSub_self (t : Str) : hasSub t t = true := by
  have := hasSub_here t []
  simpa using this

theorem summaryText_decomp (u : UserT) (profile : Option ProfileT) (meds : List MedT)
    (fam : FamilyT) (vs : List VitalT) (now : Str) :
    summaryText u profile meds fam vs now
      = headLit.dropWhile isWS
        ++ (midPart u profile meds fam vs now ++ (tailLit.reverse.dropWhile isWS).reverse) := by
  unfold summaryText summaryBody
  exact trim_decomp headLit _ tailLit (by decide) (by decide)

theorem pos_mid (t : Str) (u : UserT) (profile : Option ProfileT) (meds : List MedT)
    (fam : FamilyT) (vs : List VitalT) (now : Str)
    (h : hasSub t (midPart u profile meds fam vs now) = true) :
    hasSub t (summaryText u profile meds fam vs now) = true := by
  rw [summaryText_decomp]
  exact hs_r t _ _ (hs_l t _ _ h)

theorem pos_head (t : Str) (u : UserT) (profile : Option ProfileT) (meds : List MedT)
    (fam : FamilyT) (vs : List VitalT) (now : Str)
    (h : hasSub t (headLit.dropWhile isWS) = true) :
    hasSub t (summaryText u profile meds fam vs now) = true := by
  rw [summaryText_decomp]
  exact hs_l t _ _ h

theorem pos_tail (t : Str) (u : UserT) (profile : Option ProfileT) (meds : List MedT)
    (fam : FamilyT) (vs : List VitalT) (now : Str)
    (h : hasSub t ((tailLit.reverse.dropWhile isWS).reverse) = true) :
    hasSub t (summaryText u profile meds fam vs now) = true := by
  rw [summaryText_decomp]
  exact hs_r t _ _ (hs_r t _ _ h)

theorem nav_lit1 (t : Str) (u : UserT) (profile : Option ProfileT) (meds : List MedT)
    (fam : FamilyT) (vs : List VitalT) (now : Str)
    (h : hasSub t midLit1 = true) :
    hasSub t (summaryText u profile meds fam vs now) = true := by
  apply pos_mid
  simp only [midPart]
  apply hs_l; apply hs_l; apply hs_l; apply hs_l; apply hs_l; apply hs_l; apply hs_l
  apply hs_l; apply hs_l; apply hs_l; apply hs_l; apply hs_l; apply hs_l; apply hs_l
  apply hs_l
  exact hs_r t _ _ h

theorem nav_lit5 (t : Str) (u : UserT) (profile : Option ProfileT) (meds : List MedT)
    (fam : FamilyT) (vs : List VitalT) (now : Str)
    (h : hasSub t midLit5 = true) :
    hasSub t (summaryText u profile meds fam vs now) = true := by
  apply pos_mid
  simp only [midPart]
  apply hs_l; apply hs_l; apply hs_l; apply hs_l; apply hs_l; apply hs_l; apply hs_l
  exact hs_r t _ _ h

theorem nav_lit6 (t : Str) (u : UserT) (profile : Option ProfileT) (meds : List MedT)
    (fam : FamilyT) (vs : List VitalT) (now : Str)
    (h : hasSub t midLit6 = true) :
    hasSub t (summaryText u profile meds fam vs now) = true := by
  apply pos_mid
  simp only [midPart]
  apply hs_l; apply hs_l; apply hs_l; apply hs_l; apply hs_l
  exact hs_r t _ _ h

theorem nav_lit8 (t : Str) (u : UserT) (profile : Option ProfileT) (meds : List MedT)
    (fam : FamilyT) (vs : List VitalT) (now : Str)
    (h : hasSub t midLit8 = true) :
    hasSub t (summaryText u profile meds fam vs now) = true := by
  apply pos_mid
  simp only [midPart]
  apply hs_l
  exact hs_r t _ _ h

theorem nav_profile (t : Str) (u : UserT) (profile : Option ProfileT) (meds : List MedT)
    (fam : FamilyT) (vs : List VitalT) (now : Str)
    (h : hasSub t (profileBlock profile) = true) :
    hasSub t (summaryText u profile meds fam vs now) = true := by
  apply pos_mid
  simp only [midPart]
  apply hs_l; apply hs_l; apply hs_l; apply hs_l; apply hs_l; apply hs_l; apply hs_l
  apply hs_l
  exact hs_r t _ _ h

theorem nav_medical (t : Str) (u : UserT) (profile : Option ProfileT) (meds : List MedT)
    (fam : FamilyT) (vs : List VitalT) (now : Str)
    (h : hasSub t (medicalBlock profile) = true) :
    hasSub t (summaryText u profile meds fam vs now) = true := by
  apply pos_mid
  simp only [midPart]
  apply hs_l; apply hs_l; apply hs_l; apply hs_l; apply hs_l; apply hs_l
  exact hs_r t _ _ h

theorem nav_meds (t : Str) (u : UserT) (profile : Option ProfileT) (meds : List MedT)
    (fam : FamilyT) (vs : List VitalT) (now : Str)
    (h : hasSub t (medsStr meds) = true) :
    hasSub t (summaryText u profile meds fam vs now) = true := by
  apply pos_mid
  simp only [midPart]
  apply hs_l; apply hs_l; apply hs_l; apply hs_l
  exact hs_r t _ _ h

theorem nav_vitals (t : Str) (u : UserT) (profile : Option ProfileT) (meds : List MedT)
    (fam : FamilyT) (vs : List VitalT) (now : Str)
    (h : hasSub t (vitalsStr vs) = true) :
    hasSub t (summaryText u profile meds fam vs now) = true := by
  apply pos_mid
  simp only [midPart]
  apply hs_l; apply hs_l
  exact hs_r t _ _ h

theorem nav_contacts (t : Str) (u : UserT) (profile : Option ProfileT) (meds : List MedT)
    (fam : FamilyT) (vs : List VitalT) (now : Str)
    (h : hasSub t (contactsStr fam.emergency_contacts) = true) :
    hasSub t (summaryText u profile meds fam vs now) = true := by
  apply pos_mid
  simp only [midPart]
  exact hs_r t _ _ h

/-! ## Fan-out helper lemmas -/

/-- Reason with which a given recipient's attempt failed (empty for success). -/
def ssReason (u : UserT) (profile : Option ProfileT) (meds : List MedT)
    (fam : FamilyT) (vs : List VitalT) (now : Str) (send : Send)
    (c : ContactT) : Str :=
  match send (emailOf c) (ssSubject u) (summaryText u profile meds fam vs now) with
  | SendOutcome.ok => []
  | SendOutcome.err m => m

theorem ss_failures_eq (u : UserT) (profile : Option ProfileT) (meds : List MedT)
    (fam : FamilyT) (vs : List VitalT) (now : Str) (send : Send) :
    ∀ V : List ContactT,
    (V.map (ssAttempt u profile meds fam vs now send)).filterMap Outcome.failPair
      = (V.filter fun c => (ssAttempt u profile meds fam vs now send c).hasErr).map
          (fun c => (emailOf c, ssReason u profile meds fam vs now send c)) := by
  intro V
  induction V with
  | nil => simp
  | cons c cs ih =>
    cases hsc : send (emailOf c) (ssSubject u) (summaryText u profile meds fam vs now) with
    | ok =>
      simp [ssAttempt, hsc, Outcome.failPair, Outcome.hasErr, ih]
    | err m =>
      simp [ssAttempt, ssReason, hsc, Outcome.failPair, Outcome.hasErr, ih]

theorem ss_sentTo_eq (u : UserT) (profile : Option ProfileT) (meds : List MedT)
    (fam : FamilyT) (vs : List VitalT) (now : Str) (send : Send) :
    ∀ V : List ContactT,
    ((V.zip (V.map (ssAttempt u profile meds fam vs now send))).filter
        (fun p => !p.2.hasErr)).map (fun p => emailOf p.1)
      = (V.filter fun c => !(ssAttempt u profile meds fam vs now send c).hasErr).map emailOf := by
  intro V
  induction V with
  | nil => simp
  | cons c cs ih =>
    cases he : (ssAttempt u profile meds fam vs now send c).hasErr with
    | false => simp [List.zip_cons_cons, he, ih]
    | true => simp [List.zip_cons_cons, he, ih]

theorem filter_len_add {α : Type} (p : α → Bool) :
    ∀ l : List α, (l.filter p).length + (l.filter fun x => !(p x)).length = l.length := by
  intro l
  induction l with
  | nil => simp
  | cons x xs ih =>
    cases hx : p x with
    | true => simp [List.filter_cons, hx]; omega
    | false => simp [List.filter_cons, hx]; omega

theorem filter_all_of_len {α : Type} (p : α → Bool) :
    ∀ l : List α, (l.filter p).length = l.length → ∀ x ∈ l, p x = true := by
  intro l
  induction l with
  | nil => intro _ x hx; simp at hx
  | cons y ys ih =>
    intro hlen x hx
    cases hy : p y with
    | true =>
      rcases List.mem_cons.mp hx with rfl | hx'
      · exact hy
      · refine ih ?_ x hx'
        simpa [List.filter_cons, hy] using hlen
    | false =>
      exfalso
      have hle : (ys.filter p).length ≤ ys.length := List.length_filter_le p ys
      simp [List.filter_cons, hy, List.length_cons] at hlen
      omega

theorem findSome?_exists {α β : Type} (g : α → Option β) :
    ∀ l : List α, (∃ x ∈ l, g x ≠ none) → l.findSome? g ≠ none := by
  intro l
  induction l with
  | nil => intro h; simp at h
  | cons x xs ih =>
    intro h
    cases hx : g x with
    | some b => simp [List.findSome?_cons, hx]
    | none =>
      rcases h with ⟨y, hy, hgy⟩
      rcases List.mem_cons.mp hy with rfl | hy'
      · exact absurd hx hgy
      · simpa [List.findSome?_cons, hx] using ih ⟨y, hy', hgy⟩

theorem shareSummary_dispatch (u : UserT) (profile : Option ProfileT) (meds : List MedT)
    (fam : FamilyT) (vs : List VitalT) (now : Str) (send : Send)
    (hV : fam.emergency_contacts.filter validEmail ≠ []) :
    shareSummaryHandler u profile meds (some fam) vs now send =
      (let valid := fam.emergency_contacts.filter validEmail
       let results := valid.map (ssAttempt u profile meds fam vs now send)
       let failures := results.filterMap Outcome.failPair
       if failures.length > 0 ∧ failures.length = valid.length then
         (⟨500, Body.errFlag ("Failed to send summary email. Please try again.".toList)⟩,
          valid.map emailOf)
       else
         (⟨200, Body.okShare ("Health summary shared with emergency contacts".toList)
           (((valid.zip results).filter (fun p => !p.2.hasErr)).map (fun p => emailOf p.1))
           (if failures.length > 0 then some failures else none)⟩, valid.map emailOf)) := by
  have hcne : fam.emergency_contacts ≠ [] := by
    intro h
    exact hV (by simp [h])
  simp only [shareSummaryHandler]
  rw [if_neg (by simpa [List.isEmpty_iff] using hcne)]
  rw [if_neg (by simpa [List.isEmpty_iff] using hV)]

theorem mailContacts_dispatch (u : UserT) (profile : Option ProfileT) (meds : List MedT)
    (now : Str) (cs : List JsVal) (send : Send) (hE : emailsOf cs ≠ []) :
    mailContactsHandler u profile meds now (some cs) send =
      (match (emailsOf cs).findSome? (fun e =>
          match send e ("🩺 Emergency Medical Info".toList) (mailText u profile meds now) with
          | SendOutcome.ok => none
          | SendOutcome.err m => some m) with
       | some m => (⟨500, Body.errOnly m⟩, emailsOf cs)
       | none => (⟨200, Body.okMail ("Emergency info sent successfully.".toList)
           (emailsOf cs)⟩, emailsOf cs)) := by
  have hcs : cs ≠ [] := by
    intro h
    subst h
    simp [emailsOf] at hE
  simp only [mailContactsHandler]
  rw [if_neg (by simpa [List.isEmpty_iff] using hcs)]
  rw [if_neg (by simpa [List.isEmpty_iff, emailsOf] using hE)]

/-- C1 (amended): in `shareSummary` every valid recipient's send is invoked
regardless of other recipients failing, and a failure does not fail the
aggregate call unless every recipient fails; in `mailEmergencyContacts` every
valid recipient's send is likewise invoked, but a single rejection makes the
aggregate call itself return 500. -/
theorem claim_C1 (u : UserT) (profile : Option ProfileT) (meds : List MedT)
    (fam : FamilyT) (vs : List VitalT) (now : Str) (send : Send) (cs : List JsVal) :
    (fam.emergency_contacts.filter validEmail ≠ [] →
      (shareSummaryHandler u profile meds (some fam) vs now send).2
        = (fam.emergency_contacts.filter validEmail).map emailOf
      ∧ ((∃ c ∈ fam.emergency_contacts.filter validEmail,
            (ssAttempt u profile meds fam vs now send c).hasErr = false) →
          (shareSummaryHandler u profile meds (some fam) vs now send).1.status = 200))
    ∧ (emailsOf cs ≠ [] →
        (mailContactsHandler u profile meds now (some cs) send).2 = emailsOf cs
        ∧ ((∃ e ∈ emailsOf cs,
              send e ("🩺 Emergency Medical Info".toList) (mailText u profile meds now)
                ≠ SendOutcome.ok) →
            (mailContactsHandler u profile meds now (some cs) send).1.status = 500)) := by
  constructor
  · intro hV
    rw [shareSummary_dispatch u profile meds fam vs now send hV]
    constructor
    · simp only []
      split
      · rfl
      · rfl
    · intro hex
      have hcond : ¬(((fam.emergency_contacts.filter validEmail).map
            (ssAttempt u profile meds fam vs now send)).filterMap Outcome.failPair).length > 0
          ∨ ¬((((fam.emergency_contacts.filter validEmail).map
            (ssAttempt u profile meds fam vs now send)).filterMap Outcome.failPair).length
            = (fam.emergency_contacts.filter validEmail).length) := by
        by_contra hcon
        push_neg at hcon
        obtain ⟨hpos, hlen⟩ := hcon
        rw [ss_failures_eq] at hlen
        simp only [List.length_map] at hlen
        have hall := filter_all_of_len _ _ hlen
        rcases hex with ⟨c, hc, hcf⟩
        have := hall c hc
        rw [hcf] at this
        exact Bool.false_ne_true this
      simp only []
      rw [if_neg]
      intro hcon
      rcases hcond with h | h
      · exact h hcon.1
      · exact h hcon.2
  · intro hE
    rw [mailContacts_dispatch u profile meds now cs send hE]
    constructor
    · cases hfs : (emailsOf cs).findSome? (fun e =>
          match send e ("🩺 Emergency Medical Info".toList) (mailText u profile meds now) with
          | SendOutcome.ok => none
          | SendOutcome.err m => some m) with
      | none => simp [hfs]
      | some m => simp [hfs]
    · intro hex
      have hne : (emailsOf cs).findSome? (fun e =>
          match send e ("🩺 Emergency Medical Info".toList) (mailText u profile meds now) with
          | SendOutcome.ok => none
          | SendOutcome.err m => some m) ≠ none := by
        apply findSome?_exists
        rcases hex with ⟨e, he, hse⟩
        refine ⟨e, he, ?_⟩
        cases hsr : send e ("🩺 Emergency Medical Info".toList) (mailText u profile meds now) with
        | ok => exact absurd hsr hse
        | err m => simp
      cases hfs : (emailsOf cs).findSome? (fun e =>
          match send e ("🩺 Emergency Medical Info".toList) (mailText u profile meds now) with
          | SendOutcome.ok => none
          | SendOutcome.err m => some m) with
      | none => exact absurd hfs hne
      | some m => simp [hfs]

/-- C2 (amended): when the send fails for every valid recipient, `shareSummary`
fails as a whole with a 500 response whose body is `success:false` and a fixed
generic message; the per-recipient reasons are not part of the response. -/
theorem claim_C2 (u : UserT) (profile : Option ProfileT) (meds : List MedT)
    (fam : FamilyT) (vs : List VitalT) (now : Str) (send : Send)
    (hV : fam.emergency_contacts.filter validEmail ≠ [])
    (hAll : ∀ c ∈ fam.emergency_contacts.filter validEmail,
      (ssAttempt u profile meds fam vs now send c).hasErr = true) :
    shareSummaryHandler u profile meds (some fam) vs now send
      = (⟨500, Body.errFlag ("Failed to send summary email. Please try again.".toList)⟩,
         (fam.emergency_contacts.filter validEmail).map emailOf) := by
  rw [shareSummary_dispatch u profile meds fam vs now send hV]
  simp only []
  rw [ss_failures_eq]
  have hfe : (fam.emergency_contacts.filter validEmail).filter
      (fun c => (ssAttempt u profile meds fam vs now send c).hasErr)
      = fam.emergency_contacts.filter validEmail := List.filter_eq_self.mpr hAll
  rw [hfe]
  rw [if_pos]
  constructor
  · simp only [List.length_map]
    have : fam.emergency_contacts.filter validEmail ≠ [] := hV
    cases hc : fam.emergency_contacts.filter validEmail with
    | nil => exact absurd hc this
    | cons a l => simp
  · simp [List.length_map]

/-- C3: with a mixed outcome (some valid recipient succeeds, some fails),
`shareSummary` returns 200 `success:true` whose sent list is exactly the
succeeding recipients, whose failures list is exactly the failing recipients
with their reasons, and the two lengths sum to the number of valid
recipients. -/
theorem claim_C3 (u : UserT) (profile : Option ProfileT) (meds : List MedT)
    (fam : FamilyT) (vs : List VitalT) (now : Str) (send : Send)
    (hS : (fam.emergency_contacts.filter validEmail).filter
        (fun c => !(ssAttempt u profile meds fam vs now send c).hasErr) ≠ [])
    (hF : (fam.emergency_contacts.filter validEmail).filter
        (fun c => (ssAttempt u profile meds fam vs now send c).hasErr) ≠ []) :
    shareSummaryHandler u profile meds (some fam) vs now send
      = (⟨200, Body.okShare ("Health summary shared with emergency contacts".toList)
          (((fam.emergency_contacts.filter validEmail).filter
              (fun c => !(ssAttempt u profile meds fam vs now send c).hasErr)).map emailOf)
          (some (((fam.emergency_contacts.filter validEmail).filter
              (fun c => (ssAttempt u profile meds fam vs now send c).hasErr)).map
            (fun c => (emailOf c, ssReason u profile meds fam vs now send c))))⟩,
         (fam.emergency_contacts.filter validEmail).map emailOf)
      ∧ (((fam.emergency_contacts.filter validEmail).filter
            (fun c => !(ssAttempt u profile meds fam vs now send c).hasErr)).map emailOf).length
          + (((fam.emergency_contacts.filter validEmail).filter
            (fun c => (ssAttempt u profile meds fam vs now send c).hasErr)).map
              (fun c => (emailOf c, ssReason u profile meds fam vs now send c))).length
          = (fam.emergency_contacts.filter validEmail).length := by
  have hV : fam.emergency_contacts.filter validEmail ≠ [] := by
    intro h
    rw [h] at hS
    simp at hS
  constructor
  · rw [shareSummary_dispatch u profile meds fam vs now send hV]
    simp only []
    rw [ss_failures_eq, ss_sentTo_eq]
    have hlenne : ¬(((fam.emergency_contacts.filter validEmail).filter
        (fun c => (ssAttempt u profile meds fam vs now send c).hasErr)).map
          (fun c => (emailOf c, ssReason u profile meds fam vs now send c))).length
        = (fam.emergency_contacts.filter validEmail).length := by
      simp only [List.length_map]
      intro hlen
      have hall := filter_all_of_len _ _ hlen
      cases hSc : (fam.emergency_contacts.filter validEmail).filter
          (fun c => !(ssAttempt u profile meds fam vs now send c).hasErr) with
      | nil => exact hS hSc
      | cons a l =>
        have ha : a ∈ (fam.emergency_contacts.filter validEmail).filter
            (fun c => !(ssAttempt u profile meds fam vs now send c).hasErr) := by
          rw [hSc]; simp
        have hmem := List.mem_filter.mp ha
        have h1 := hall a hmem.1
        have h2 := hmem.2
        rw [h1] at h2
        simp at h2
    rw [if_neg (by intro hcon; exact hlenne hcon.2)]
    have hfpos : (((fam.emergency_contacts.filter validEmail).filter
        (fun c => (ssAttempt u profile meds fam vs now send c).hasErr)).map
          (fun c => (emailOf c, ssReason u profile meds fam vs now send c))).length > 0 := by
      simp only [List.length_map]
      cases hFc : (fam.emergency_contacts.filter validEmail).filter
          (fun c => (ssAttempt u profile meds fam vs now send c).hasErr) with
      | nil => exact absurd hFc hF
      | cons a l => simp
    rw [if_pos hfpos]
  · simp only [List.length_map]
    have := filter_len_add (fun c => (ssAttempt u profile meds fam vs now send c).hasErr)
      (fam.emergency_contacts.filter validEmail)
    omega

/-! ## Concrete inputs for witnesses and counterexamples -/

def wUser : UserT := ⟨"bob".toList, "bob@x.com".toList⟩

def wProf : ProfileT :=
  ⟨some ("b+".toList), some 30, some ("male".toList), some ["dust".toList],
   some ["flu".toList], some ["d@x.com".toList]⟩

def wMed : MedT := ⟨"aspirin".toList, "100mg".toList, "daily".toList, ["morning".toList], 5⟩

def wCon : ContactT :=
  ⟨some ("1".toList), "mom".toList, "mother".toList, some ("123".toList),
   some ("mom@x.com".toList)⟩

def wConB : ContactT :=
  ⟨some ("2".toList), "dad".toList, "father".toList, some ("456".toList),
   some ("dad@x.com".toList)⟩

def wFam : FamilyT := ⟨"smiths".toList, [wCon]⟩

def wFam2 : FamilyT := ⟨"smiths".toList, [wCon, wConB]⟩

def wVit : VitalT := ⟨120, 80, 90, 98, 70, "10/11/2026".toList⟩

def wNow : Str := "10/11/2026".toList

/-- A collaborator that rejects exactly for dad@x.com. -/
def mixSend : Send := fun dst _ _ =>
  if dst = "dad@x.com".toList then SendOutcome.err ("boom".toList) else SendOutcome.ok

/-- C1 counterexample input: in `mailEmergencyContacts` the failure of the
second recipient alone makes the aggregate call return 500, even though both
recipients were dispatched. -/
theorem claim_C1_counterexample :
    (mailContactsHandler wUser (some wProf) [] wNow
        (some [JsVal.jstr ("mom@x.com".toList), JsVal.jstr ("dad@x.com".toList)]) mixSend).1
      = ⟨500, Body.errOnly ("boom".toList)⟩
    ∧ (mailContactsHandler wUser (some wProf) [] wNow
        (some [JsVal.jstr ("mom@x.com".toList), JsVal.jstr ("dad@x.com".toList)]) mixSend).2
      = ["mom@x.com".toList, "dad@x.com".toList] := by
  constructor
  · decide
  · decide

theorem claim_C1_witness :
    ((shareSummaryHandler wUser (some wProf) [wMed] (some wFam2) [wVit] wNow mixSend).2
        = (wFam2.emergency_contacts.filter validEmail).map emailOf
      ∧ (shareSummaryHandler wUser (some wProf) [wMed] (some wFam2) [wVit] wNow mixSend).1.status
        = 200)
    ∧ ((mailContactsHandler wUser (some wProf) [wMed] wNow
          (some [JsVal.jstr ("mom@x.com".toList), JsVal.jstr ("dad@x.com".toList)]) mixSend).2
        = emailsOf [JsVal.jstr ("mom@x.com".toList), JsVal.jstr ("dad@x.com".toList)]
      ∧ (mailContactsHandler wUser (some wProf) [wMed] wNow
          (some [JsVal.jstr ("mom@x.com".toList), JsVal.jstr ("dad@x.com".toList)]) mixSend).1.status
        = 500) := by
  have h := claim_C1 wUser (some wProf) [wMed] wFam2 [wVit] wNow mixSend
    [JsVal.jstr ("mom@x.com".toList), JsVal.jstr ("dad@x.com".toList)]
  refine ⟨⟨(h.1 (by decide)).1, (h.1 (by decide)).2 (by decide)⟩,
          ⟨(h.2 (by decide)).1, (h.2 (by decide)).2 (by decide)⟩⟩

/-- A collaborator that rejects for every recipient, with distinct reasons. -/
def failSend : Send := fun dst _ _ =>
  SendOutcome.err (if dst = "mom@x.com".toList then "boom1".toList else "boom2".toList)

/-- C2 counterexample input: with two valid recipients and an always-failing
collaborator the response is the fixed generic 500 message, which carries
neither of the two per-recipient reasons. -/
theorem claim_C2_counterexample :
    (shareSummaryHandler wUser (some wProf) [] wFam2 [] wNow failSend).1
      = ⟨500, Body.errFlag ("Failed to send summary email. Please try again.".toList)⟩
    ∧ hasSub ("boom1".toList)
        ("Failed to send summary email. Please try again.".toList) = false
    ∧ hasSub ("boom2".toList)
        ("Failed to send summary email. Please try again.".toList) = false
    ∧ (wFam2.emergency_contacts.filter validEmail).length = 2 := by
  refine ⟨by decide, by decide, by decide, by decide⟩

theorem claim_C2_witness :
    shareSummaryHandler wUser (some wProf) [] wFam2 [] wNow failSend
      = (⟨500, Body.errFlag ("Failed to send summary email. Please try again.".toList)⟩,
         (wFam2.emergency_contacts.filter validEmail).map emailOf) :=
  claim_C2 wUser (some wProf) [] wFam2 [] wNow failSend (by decide) (by decide)

theorem claim_C3_witness :
    shareSummaryHandler wUser (some wProf) [wMed] wFam2 [wVit] wNow mixSend
      = (⟨200, Body.okShare ("Health summary shared with emergency contacts".toList)
          (((wFam2.emergency_contacts.filter validEmail).filter
              (fun c => !(ssAttempt wUser (some wProf) [wMed] wFam2 [wVit] wNow mixSend c).hasErr)).map
            emailOf)
          (some (((wFam2.emergency_contacts.filter validEmail).filter
              (fun c => (ssAttempt wUser (some wProf) [wMed] wFam2 [wVit] wNow mixSend c).hasErr)).map
            (fun c => (emailOf c, ssReason wUser (some wProf) [wMed] wFam2 [wVit] wNow mixSend c))))⟩,
         (wFam2.emergency_contacts.filter validEmail).map emailOf)
      ∧ (((wFam2.emergency_contacts.filter validEmail).filter
            (fun c => !(ssAttempt wUser (some wProf) [wMed] wFam2 [wVit] wNow mixSend c).hasErr)).map
          emailOf).length
        + (((wFam2.emergency_contacts.filter validEmail).filter
            (fun c => (ssAttempt wUser (some wProf) [wMed] wFam2 [wVit] wNow mixSend c).hasErr)).map
          (fun c => (emailOf c, ssReason wUser (some wProf) [wMed] wFam2 [wVit] wNow mixSend c))).length
        = (wFam2.emergency_contacts.filter validEmail).length :=
  claim_C3 wUser (some wProf) [wMed] wFam2 [wVit] wNow mixSend (by decide) (by decide)

theorem jsOrO_eq_none (a b : Option Str) (h : jsOrO a b = none) :
    (a = none ∨ a = some []) ∧ b = none := by
  cases a with
  | none => exact ⟨Or.inl rfl, h⟩
  | some s =>
    cases hs : s.isEmpty with
    | true =>
      have hsnil : s = [] := List.isEmpty_iff.mp hs
      simp only [jsOrO, hs, if_pos] at h
      exact ⟨Or.inr (by rw [hsnil]), h⟩
    | false =>
      simp [jsOrO, hs] at h

theorem jsOrO_eq_some_nil (a b : Option Str) (h : jsOrO a b = some []) :
    (a = none ∨ a = some []) ∧ b = some [] := by
  cases a with
  | none => exact ⟨Or.inl rfl, h⟩
  | some s =>
    cases hs : s.isEmpty with
    | true =>
      have hsnil : s = [] := List.isEmpty_iff.mp hs
      simp only [jsOrO, hs, if_pos] at h
      exact ⟨Or.inr (by rw [hsnil]), h⟩
    | false =>
      simp only [jsOrO, hs] at h
      simp at h
      subst h
      simp at hs

/-- C4: an empty recipient set, or one with no "@"-containing entry after
filtering, yields an immediate 400 in both fan-out handlers, with zero send
invocations. -/
theorem claim_C4 (u : UserT) (profile : Option ProfileT) (meds : List MedT)
    (now : Str) (send : Send) (fam : FamilyT) (vs : List VitalT) (cs : List JsVal) :
    mailContactsHandler u profile meds now none send
      = (⟨400, Body.errOnly ("No contacts provided.".toList)⟩, [])
    ∧ mailContactsHandler u profile meds now (some []) send
      = (⟨400, Body.errOnly ("No contacts provided.".toList)⟩, [])
    ∧ (emailsOf cs = [] → cs ≠ [] →
        mailContactsHandler u profile meds now (some cs) send
          = (⟨400, Body.errOnly ("No valid email addresses found.".toList)⟩, []))
    ∧ shareSummaryHandler u profile meds none vs now send
      = (⟨400, Body.errOnly ("No emergency contacts found".toList)⟩, [])
    ∧ (fam.emergency_contacts = [] →
        shareSummaryHandler u profile meds (some fam) vs now send
          = (⟨400, Body.errOnly ("No emergency contacts found".toList)⟩, []))
    ∧ (fam.emergency_contacts.filter validEmail = [] → fam.emergency_contacts ≠ [] →
        shareSummaryHandler u profile meds (some fam) vs now send
          = (⟨400, Body.errFlag ("No valid emergency contact emails found".toList)⟩, [])) := by
  refine ⟨rfl, rfl, ?_, rfl, ?_, ?_⟩
  · intro hem hne
    simp only [mailContactsHandler]
    rw [if_neg (by simpa [List.isEmpty_iff] using hne)]
    rw [if_pos (by simpa [List.isEmpty_iff] using hem)]
  · intro h
    simp [shareSummaryHandler, h]
  · intro hfe hne
    simp only [shareSummaryHandler]
    rw [if_neg (by simpa [List.isEmpty_iff] using hne)]
    rw [if_pos (by simpa [List.isEmpty_iff] using hfe)]

/-- C5: the recipients passed to the mail collaborator are exactly the entries
whose email string contains an "@"; non-matching entries are silently excluded
and never dispatched. -/
theorem claim_C5 (u : UserT) (profile : Option ProfileT) (meds : List MedT)
    (now : Str) (send : Send) (cs : List JsVal) (fam : FamilyT) :
    (∀ s : Str, s ∈ emailsOf cs ↔ (JsVal.jstr s ∈ cs ∧ '@' ∈ s))
    ∧ (∀ s ∈ (mailContactsHandler u profile meds now (some cs) send).2,
        JsVal.jstr s ∈ cs ∧ '@' ∈ s)
    ∧ (emailsOf cs ≠ [] →
        (mailContactsHandler u profile meds now (some cs) send).2 = emailsOf cs)
    ∧ (∀ c : ContactT, c ∈ fam.emergency_contacts.filter validEmail ↔
        (c ∈ fam.emergency_contacts ∧ ∃ e, c.email = some e ∧ e ≠ [] ∧ '@' ∈ e))
    ∧ emailsOf [JsVal.jstr ("a@x.com".toList), JsVal.jstr ("not-an-email".toList),
        JsVal.jstr ("b@x.com".toList)] = ["a@x.com".toList, "b@x.com".toList] := by
  have hmemiff : ∀ s : Str, s ∈ emailsOf cs ↔ (JsVal.jstr s ∈ cs ∧ '@' ∈ s) := by
    intro s
    constructor
    · intro hs
      rcases List.mem_filterMap.mp hs with ⟨v, hv, hev⟩
      cases v with
      | jstr s' =>
        by_cases hat : '@' ∈ s'
        · simp only [toEmail, if_pos hat] at hev
          obtain rfl : s' = s := by injection hev
          exact ⟨hv, hat⟩
        · simp [toEmail, hat] at hev
      | other => simp [toEmail] at hev
    · rintro ⟨hmem, hat⟩
      exact List.mem_filterMap.mpr ⟨JsVal.jstr s, hmem, by simp [toEmail, hat]⟩
  have hlog : ∀ s ∈ (mailContactsHandler u profile meds now (some cs) send).2,
      JsVal.jstr s ∈ cs ∧ '@' ∈ s := by
    intro s hs
    by_cases hcs : cs.isEmpty = true
    · simp [mailContactsHandler, hcs] at hs
    · by_cases hem : emailsOf cs = []
      · simp only [mailContactsHandler] at hs
        rw [if_neg hcs] at hs
        rw [if_pos (by simpa [List.isEmpty_iff] using hem)] at hs
        simp at hs
      · rw [mailContacts_dispatch u profile meds now cs send hem] at hs
        cases hfs : (emailsOf cs).findSome? (fun e =>
            match send e ("🩺 Emergency Medical Info".toList) (mailText u profile meds now) with
            | SendOutcome.ok => none
            | SendOutcome.err m => some m) with
        | none =>
          rw [hfs] at hs
          simp only [] at hs
          exact (hmemiff s).mp hs
        | some m =>
          rw [hfs] at hs
          simp only [] at hs
          exact (hmemiff s).mp hs
  refine ⟨hmemiff, hlog, ?_, ?_, by decide⟩
  · intro hem
    rw [mailContacts_dispatch u profile meds now cs send hem]
    cases (emailsOf cs).findSome? (fun e =>
        match send e ("🩺 Emergency Medical Info".toList) (mailText u profile meds now) with
        | SendOutcome.ok => none
        | SendOutcome.err m => some m) with
    | some m => rfl
    | none => rfl
  · intro c
    rw [List.mem_filter]
    constructor
    · rintro ⟨hmem, hv⟩
      refine ⟨hmem, ?_⟩
      cases he : c.email with
      | none => simp [validEmail, he] at hv
      | some e =>
        simp only [validEmail, he, Bool.and_eq_true, Bool.not_eq_true',
          decide_eq_true_eq] at hv
        exact ⟨e, rfl, by simpa [List.isEmpty_iff] using hv.1, hv.2⟩
    · rintro ⟨hmem, e, he, hene, hat⟩
      refine ⟨hmem, ?_⟩
      simp [validEmail, he, List.isEmpty_iff, hene, hat]

/-- C10: when the contactId matches no contact or the matched contact has no
(truthy) email, the handler falls back to the default emergency address and
sends there, returning 200; a 400 arises only when both the contact email and
the fallback are absent, and then nothing is sent. -/
theorem claim_C10 (contactId : Str) (u : UserT) (profile : Option ProfileT)
    (meds : List MedT) (family : Option FamilyT) (send : Send) (d : Str)
    (defaultEmail : Option Str) :
    (((lookupContact contactId family).bind ContactT.email = none
        ∨ (lookupContact contactId family).bind ContactT.email = some []) →
      d ≠ [] →
      send d infoSubject (infoText u profile meds d) = SendOutcome.ok →
      shareInfoHandler contactId u profile meds family (some d) send
        = (⟨200, Body.okInfo ("Emergency info emailed successfully".toList) d⟩, [d]))
    ∧ ((shareInfoHandler contactId u profile meds family defaultEmail send).1.status = 400 →
        (((lookupContact contactId family).bind ContactT.email = none
            ∨ (lookupContact contactId family).bind ContactT.email = some [])
          ∧ (defaultEmail = none ∨ defaultEmail = some []))
        ∧ (shareInfoHandler contactId u profile meds family defaultEmail send).2 = []) := by
  constructor
  · intro hmiss hd hok
    have hj : jsOrO ((lookupContact contactId family).bind ContactT.email) (some d) = some d := by
      rcases hmiss with h | h
      · simp [jsOrO, h]
      · simp [jsOrO, h]
    simp only [shareInfoHandler, hj]
    rw [if_neg (by simpa [List.isEmpty_iff] using hd)]
    rw [hok]
  · intro h400
    cases hj : jsOrO ((lookupContact contactId family).bind ContactT.email) defaultEmail with
    | none =>
      have hf := jsOrO_eq_none _ _ hj
      refine ⟨⟨hf.1, Or.inl hf.2⟩, ?_⟩
      simp [shareInfoHandler, hj]
    | some e =>
      by_cases he : e.isEmpty = true
      · have henil : e = [] := List.isEmpty_iff.mp he
        subst henil
        have hf := jsOrO_eq_some_nil _ _ hj
        refine ⟨⟨hf.1, Or.inr hf.2⟩, ?_⟩
        simp [shareInfoHandler, hj]
      · exfalso
        simp only [shareInfoHandler, hj] at h400
        rw [if_neg (by simp [he])] at h400
        cases hs : send e infoSubject (infoText u profile meds e) with
        | ok => rw [hs] at h400; simp at h400
        | err m => rw [hs] at h400; simp at h400

/-- C9 (amended): ApiClient.request always returns a normalized value: a 2xx
response with parsed body yields success true with the data; a non-ok response
yields success false with a non-empty error; a fetch or body-parse rejection
yields success false with the thrown message (or "Network error"), which is
empty exactly when the rejection was an Error with an empty message. -/
theorem claim_C9 :
    (∀ (st : Nat) (stx : Str) (d : JVal),
      requestFn (FetchOutcome.okJson true st stx d) = ⟨true, some d, none⟩)
    ∧ (∀ (st : Nat) (stx : Str) (d : JVal),
        (requestFn (FetchOutcome.okJson false st stx d)).success = false
        ∧ ∃ e, (requestFn (FetchOutcome.okJson false st stx d)).error = some e ∧ e ≠ [])
    ∧ (∀ tv : ThrownVal,
        (requestFn (FetchOutcome.netErr tv)).success = false
        ∧ (requestFn (FetchOutcome.netErr tv)).error = some (errToMsg tv)
        ∧ (errToMsg tv = [] ↔ tv = ThrownVal.errObj []))
    ∧ (∀ (ok : Bool) (st : Nat) (stx : Str) (tv : ThrownVal),
        (requestFn (FetchOutcome.jsonErr ok st stx tv)).success = false
        ∧ (requestFn (FetchOutcome.jsonErr ok st stx tv)).error = some (errToMsg tv)) := by
  refine ⟨fun st stx d => rfl, ?_, ?_, fun ok st stx tv => ⟨rfl, rfl⟩⟩
  · intro st stx d
    refine ⟨rfl, strOr d.errField ("HTTP ".toList ++ natStr st ++ ": ".toList ++ stx), rfl, ?_⟩
    cases hd : d.errField with
    | none =>
      simp only [strOr]
      intro h
      have := congrArg List.length h
      simp [natStr] at this
    | some s =>
      cases hs : s.isEmpty with
      | true =>
        simp only [strOr, hs, if_pos]
        intro h
        have := congrArg List.length h
        simp [natStr] at this
      | false =>
        simp only [strOr, hs]
        rw [if_neg (by simp)]
        simpa [List.isEmpty_iff] using hs
  · intro tv
    refine ⟨rfl, rfl, ?_⟩
    cases tv with
    | errObj m => simp [errToMsg]
    | nonErrVal => simp [errToMsg]

/-- C9 counterexample input: a rejection carrying an Error whose message is
the empty string yields success false together with an EMPTY error string. -/
theorem claim_C9_counterexample :
    requestFn (FetchOutcome.netErr (ThrownVal.errObj [])) = ⟨false, none, some []⟩ := by
  decide

/-- A collaborator that succeeds for every recipient. -/
def okSend : Send := fun _ _ _ => SendOutcome.ok

def exContacts : List JsVal :=
  [JsVal.jstr ("a@x.com".toList), JsVal.jstr ("not-an-email".toList),
   JsVal.jstr ("b@x.com".toList)]

def badFam : FamilyT := ⟨"smiths".toList, [⟨none, "mom".toList, "mother".toList, none, none⟩]⟩

theorem claim_C4_witness :
    mailContactsHandler wUser (some wProf) [] wNow
        (some [JsVal.other, JsVal.jstr ("nope".toList)]) okSend
      = (⟨400, Body.errOnly ("No valid email addresses found.".toList)⟩, [])
    ∧ shareSummaryHandler wUser (some wProf) [] (some badFam) [] wNow okSend
      = (⟨400, Body.errFlag ("No valid emergency contact emails found".toList)⟩, []) := by
  have h := claim_C4 wUser (some wProf) [] wNow okSend badFam []
    [JsVal.other, JsVal.jstr ("nope".toList)]
  exact ⟨h.2.2.1 (by decide) (by decide), h.2.2.2.2.2 (by decide) (by decide)⟩

theorem claim_C5_witness :
    (mailContactsHandler wUser (some wProf) [] wNow (some exContacts) okSend).2
      = emailsOf exContacts
    ∧ (wCon ∈ wFam.emergency_contacts.filter validEmail ↔
        (wCon ∈ wFam.emergency_contacts ∧ ∃ e, wCon.email = some e ∧ e ≠ [] ∧ '@' ∈ e)) := by
  have h := claim_C5 wUser (some wProf) [] wNow okSend exContacts wFam
  exact ⟨h.2.2.1 (by decide), h.2.2.2.1 wCon⟩

theorem claim_C10_witness :
    shareInfoHandler ("9".toList) wUser (some wProf) [] (some wFam)
        (some ("fallback@x.com".toList)) okSend
      = (⟨200, Body.okInfo ("Emergency info emailed successfully".toList)
          ("fallback@x.com".toList)⟩, ["fallback@x.com".toList])
    ∧ ((((lookupContact ("9".toList) (some wFam)).bind ContactT.email = none
          ∨ (lookupContact ("9".toList) (some wFam)).bind ContactT.email = some [])
        ∧ ((none : Option Str) = none ∨ (none : Option Str) = some []))
      ∧ (shareInfoHandler ("9".toList) wUser (some wProf) [] (some wFam) none okSend).2 = []) := by
  constructor
  · exact (claim_C10 ("9".toList) wUser (some wProf) [] (some wFam) okSend
      ("fallback@x.com".toList) none).1 (by decide) (by decide) (by decide)
  · exact (claim_C10 ("9".toList) wUser (some wProf) [] (some wFam) okSend
      ("fallback@x.com".toList) none).2 (by decide)

/-- C7: with an empty vitals sequence the rendered summary contains no
"RECENT VITAL SIGNS" heading (for benign inputs that cannot inject the
heading through a text field); with at least one vital record it contains the
most recent (first) record's systolic/diastolic, sugar, temperature and
weight values in the specified format. -/
theorem claim_C7 (u : UserT) (profile : Option ProfileT) (meds : List MedT)
    (fam : FamilyT) (vs : List VitalT) (now : Str) :
    (vs = [] →
      inputOkB ("RECENT VITAL SIGNS".toList) u profile meds fam vs now = true →
      hasSub ("RECENT VITAL SIGNS".toList) (summaryText u profile meds fam vs now) = false)
    ∧ (∀ (v : VitalT) (tl : List VitalT), vs = v :: tl →
        hasSub ("Blood Pressure: ".toList ++ natStr v.bp_systolic ++ "/".toList
            ++ natStr v.bp_diastolic ++ " mmHg".toList)
          (summaryText u profile meds fam vs now) = true
        ∧ hasSub ("Blood Sugar: ".toList ++ natStr v.sugar ++ " mg/dL".toList)
            (summaryText u profile meds fam vs now) = true
        ∧ hasSub ("Temperature: ".toList ++ natStr v.temperature ++ "°F".toList)
            (summaryText u profile meds fam vs now) = true
        ∧ hasSub ("Weight: ".toList ++ natStr v.weight ++ " kg".toList)
            (summaryText u profile meds fam vs now) = true) := by
  constructor
  · intro hvs hin
    subst hvs
    exact noSub_summaryText _ (by decide) (by decide) u profile meds fam [] now hin
      (by cases meds with
          | nil => decide
          | cons m ms => simp only [List.isEmpty_cons]; decide)
  · intro v tl hvs
    subst hvs
    refine ⟨?_, ?_, ?_, ?_⟩
    · apply nav_vitals
      have e : vitalsStr (v :: tl)
          = "\nRECENT VITAL SIGNS\n----------------\n".toList
            ++ (("Blood Pressure: ".toList ++ natStr v.bp_systolic ++ "/".toList
                ++ natStr v.bp_diastolic ++ " mmHg".toList)
              ++ ("\nBlood Sugar: ".toList ++ (natStr v.sugar
                ++ (" mg/dL\nTemperature: ".toList ++ (natStr v.temperature
                ++ ("°F\nWeight: ".toList ++ (natStr v.weight
                ++ (" kg\nRecorded on: ".toList ++ v.recordedOn)))))))) := by
        have h1 : ("\nRECENT VITAL SIGNS\n----------------\nBlood Pressure: ".toList : Str)
            = "\nRECENT VITAL SIGNS\n----------------\n".toList ++ "Blood Pressure: ".toList := by
          decide
        have h2 : (" mmHg\nBlood Sugar: ".toList : Str)
            = " mmHg".toList ++ "\nBlood Sugar: ".toList := by decide
        simp only [vitalsStr]
        rw [h1, h2]
        simp [List.append_assoc]
      rw [e]
      exact hs_r _ _ _ (hasSub_here _ _)
    · apply nav_vitals
      have e : vitalsStr (v :: tl)
          = ("\nRECENT VITAL SIGNS\n----------------\nBlood Pressure: ".toList
              ++ (natStr v.bp_systolic ++ ("/".toList ++ (natStr v.bp_diastolic
              ++ " mmHg\n".toList))))
            ++ (("Blood Sugar: ".toList ++ natStr v.sugar ++ " mg/dL".toList)
              ++ ("\nTemperature: ".toList ++ (natStr v.temperature
                ++ ("°F\nWeight: ".toList ++ (natStr v.weight
                ++ (" kg\nRecorded on: ".toList ++ v.recordedOn)))))) := by
        have h2 : (" mmHg\nBlood Sugar: ".toList : Str)
            = " mmHg\n".toList ++ "Blood Sugar: ".toList := by decide
        have h3 : (" mg/dL\nTemperature: ".toList : Str)
            = " mg/dL".toList ++ "\nTemperature: ".toList := by decide
        simp only [vitalsStr]
        rw [h2, h3]
        simp [List.append_assoc]
      rw [e]
      exact hs_r _ _ _ (hasSub_here _ _)
    · apply nav_vitals
      have e : vitalsStr (v :: tl)
          = ("\nRECENT VITAL SIGNS\n----------------\nBlood Pressure: ".toList
              ++ (natStr v.bp_systolic ++ ("/".toList ++ (natStr v.bp_diastolic
              ++ (" mmHg\nBlood Sugar: ".toList ++ (natStr v.sugar ++ " mg/dL\n".toList))))))
            ++ (("Temperature: ".toList ++ natStr v.temperature ++ "°F".toList)
              ++ ("\nWeight: ".toList ++ (natStr v.weight
                ++ (" kg\nRecorded on: ".toList ++ v.recordedOn)))) := by
        have h3 : (" mg/dL\nTemperature: ".toList : Str)
            = " mg/dL\n".toList ++ "Temperature: ".toList := by decide
        have h4 : ("°F\nWeight: ".toList : Str)
            = "°F".toList ++ "\nWeight: ".toList := by decide
        simp only [vitalsStr]
        rw [h3, h4]
        simp [List.append_assoc]
      rw [e]
      exact hs_r _ _ _ (hasSub_here _ _)
    · apply nav_vitals
      have e : vitalsStr (v :: tl)
          = ("\nRECENT VITAL SIGNS\n----------------\nBlood Pressure: ".toList
              ++ (natStr v.bp_systolic ++ ("/".toList ++ (natStr v.bp_diastolic
              ++ (" mmHg\nBlood Sugar: ".toList ++ (natStr v.sugar
              ++ (" mg/dL\nTemperature: ".toList ++ (natStr v.temperature
              ++ "°F\n".toList))))))))
            ++ (("Weight: ".toList ++ natStr v.weight ++ " kg".toList)
              ++ ("\nRecorded on: ".toList ++ v.recordedOn)) := by
        have h4 : ("°F\nWeight: ".toList : Str)
            = "°F\n".toList ++ "Weight: ".toList := by decide
        have h5 : (" kg\nRecorded on: ".toList : Str)
            = " kg".toList ++ "\nRecorded on: ".toList := by decide
        simp only [vitalsStr]
        rw [h4, h5]
        simp [List.append_assoc]
      rw [e]
      exact hs_r _ _ _ (hasSub_here _ _)

theorem claim_C7_witness :
    hasSub ("RECENT VITAL SIGNS".toList)
        (summaryText wUser (some wProf) [wMed] wFam [] wNow) = false
    ∧ hasSub ("Blood Pressure: ".toList ++ natStr 120 ++ "/".toList ++ natStr 80
        ++ " mmHg".toList)
        (summaryText wUser (some wProf) [wMed] wFam [wVit] wNow) = true := by
  constructor
  · exact (claim_C7 wUser (some wProf) [wMed] wFam [] wNow).1 rfl (by decide)
  · exact ((claim_C7 wUser (some wProf) [wMed] wFam [wVit] wNow).2 wVit [] rfl).1

/-- C8: with an empty medications list the summary contains the literal
"No current medications", the medications slot is exactly that message (no
itemized entries), and no medication-line marker ("Frequency:") occurs in the
output for benign inputs. -/
theorem claim_C8 (u : UserT) (profile : Option ProfileT) (fam : FamilyT)
    (vs : List VitalT) (now : Str) :
    hasSub ("No current medications".toList) (summaryText u profile [] fam vs now) = true
    ∧ medsStr [] = "No current medications".toList
    ∧ (inputOkB ("Frequency:".toList) u profile [] fam vs now = true →
        hasSub ("Frequency:".toList) (summaryText u profile [] fam vs now) = false) := by
  refine ⟨?_, by simp [medsStr], ?_⟩
  · apply nav_meds
    have e : medsStr ([] : List MedT) = "No current medications".toList := by simp [medsStr]
    rw [e]
    exact hasSub_self _
  · intro hin
    exact noSub_summaryText _ (by decide) (by decide) u profile [] fam vs now hin
      (by cases vs with
          | nil => decide
          | cons v tl => simp only [List.isEmpty_cons]; decide)

def w8User : UserT := ⟨"bob".toList, "bob@ab.xz".toList⟩

def w8Prof : ProfileT :=
  ⟨some ("b+".toList), some 30, some ("m".toList), some ["milk".toList],
   some ["asthma".toList], some ["d@ab.xz".toList]⟩

def w8Con : ContactT :=
  ⟨some ("1".toList), "mom".toList, "dad".toList, some ("123".toList),
   some ("mom@ab.xz".toList)⟩

def w8Fam : FamilyT := ⟨"smiths".toList, [w8Con]⟩

theorem claim_C8_witness :
    hasSub ("Frequency:".toList)
        (summaryText w8User (some w8Prof) [] w8Fam [] ("10/11/2026".toList)) = false :=
  (claim_C8 w8User (some w8Prof) w8Fam [] ("10/11/2026".toList)).2.2 (by decide)

/-- C6 (amended): section headers are always rendered, and every missing
optional field of the profile, the medical information, and the contact phone
renders its fixed placeholder; a missing emergency-contact email is rendered
as the raw interpolation "undefined" rather than a placeholder. -/
theorem claim_C6 (u : UserT) (meds : List MedT) (fam : FamilyT) (vs : List VitalT)
    (now : Str) (profile : Option ProfileT) (p : ProfileT) (c : ContactT) :
    hasSub ("PERSONAL INFORMATION".toList) (summaryText u profile meds fam vs now) = true
    ∧ hasSub ("MEDICAL INFORMATION".toList) (summaryText u profile meds fam vs now) = true
    ∧ hasSub ("CURRENT MEDICATIONS".toList) (summaryText u profile meds fam vs now) = true
    ∧ hasSub ("EMERGENCY CONTACTS".toList) (summaryText u profile meds fam vs now) = true
    ∧ hasSub ("HEALTH SUMMARY REPORT".toList) (summaryText u profile meds fam vs now) = true
    ∧ hasSub ("EMERGENCY INSTRUCTIONS".toList) (summaryText u profile meds fam vs now) = true
    ∧ hasSub ("No profile information available".toList)
        (summaryText u none meds fam vs now) = true
    ∧ hasSub ("No medical information available".toList)
        (summaryText u none meds fam vs now) = true
    ∧ (p.blood_group = none ∨ p.blood_group = some [] →
        hasSub ("Blood Group: Not Provided".toList)
          (summaryText u (some p) meds fam vs now) = true)
    ∧ (p.age = none ∨ p.age = some 0 →
        hasSub ("Age: Not Provided".toList) (summaryText u (some p) meds fam vs now) = true)
    ∧ (p.gender = none ∨ p.gender = some [] →
        hasSub ("Gender: Not Provided".toList)
          (summaryText u (some p) meds fam vs now) = true)
    ∧ (p.allergies = none ∨ p.allergies = some [] →
        hasSub ("Allergies: None reported".toList)
          (summaryText u (some p) meds fam vs now) = true)
    ∧ (p.existing_conditions = none ∨ p.existing_conditions = some [] →
        hasSub ("Existing Conditions: None reported".toList)
          (summaryText u (some p) meds fam vs now) = true)
    ∧ (p.family_doctor_email = none ∨ p.family_doctor_email = some [] →
        hasSub ("Family Doctor Email: None registered".toList)
          (summaryText u (some p) meds fam vs now) = true)
    ∧ (c ∈ fam.emergency_contacts → c.phone = none ∨ c.phone = some [] →
        hasSub ("Phone: Not provided".toList)
          (summaryText u profile meds fam vs now) = true)
    ∧ (c ∈ fam.emergency_contacts → c.email = none →
        hasSub ("Email: undefined".toList)
          (summaryText u profile meds fam vs now) = true) := by
  refine ⟨?_, ?_, ?_, ?_, ?_, ?_, ?_, ?_, ?_, ?_, ?_, ?_, ?_, ?_, ?_, ?_⟩
  · exact nav_lit1 _ u profile meds fam vs now (by decide)
  · exact nav_lit5 _ u profile meds fam vs now (by decide)
  · exact nav_lit6 _ u profile meds fam vs now (by decide)
  · exact nav_lit8 _ u profile meds fam vs now (by decide)
  · exact pos_head _ u profile meds fam vs now (by decide)
  · exact pos_tail _ u profile meds fam vs now (by decide)
  · apply nav_profile
    have e : profileBlock none = "No profile information available".toList := rfl
    rw [e]
    exact hasSub_self _
  · apply nav_medical
    have e : medicalBlock none = "No medical information available".toList := rfl
    rw [e]
    exact hasSub_self _
  · intro hf
    apply nav_profile
    have hv : strOr p.blood_group ("Not Provided".toList) = "Not Provided".toList := by
      rcases hf with h | h <;> simp [strOr, h]
    have hT : ("Blood Group: Not Provided".toList : Str)
        = "Blood Group: ".toList ++ "Not Provided".toList := by decide
    have e : profileBlock (some p)
        = ("Blood Group: ".toList ++ "Not Provided".toList)
          ++ ("\nAge: ".toList ++ (natOr p.age ("Not Provided".toList)
            ++ ("\nGender: ".toList ++ strOr p.gender ("Not Provided".toList)))) := by
      rw [profileBlock, hv]
      simp [List.append_assoc]
    rw [hT, e]
    exact hasSub_here _ _
  · intro hf
    apply nav_profile
    have hv : natOr p.age ("Not Provided".toList) = "Not Provided".toList := by
      rcases hf with h | h <;> simp [natOr, h]
    have hs1 : ("\nAge: ".toList : Str) = "\n".toList ++ "Age: ".toList := by decide
    have hT : ("Age: Not Provided".toList : Str)
        = "Age: ".toList ++ "Not Provided".toList := by decide
    have e : profileBlock (some p)
        = ("Blood Group: ".toList ++ (strOr p.blood_group ("Not Provided".toList)
            ++ "\n".toList))
          ++ (("Age: ".toList ++ "Not Provided".toList)
            ++ ("\nGender: ".toList ++ strOr p.gender ("Not Provided".toList))) := by
      rw [profileBlock, hv, hs1]
      simp [List.append_assoc]
    rw [hT, e]
    exact hs_r _ _ _ (hasSub_here _ _)
  · intro hf
    apply nav_profile
    have hv : strOr p.gender ("Not Provided".toList) = "Not Provided".toList := by
      rcases hf with h | h <;> simp [strOr, h]
    have hs1 : ("\nGender: ".toList : Str) = "\n".toList ++ "Gender: ".toList := by decide
    have hT : ("Gender: Not Provided".toList : Str)
        = "Gender: ".toList ++ "Not Provided".toList := by decide
    have e : profileBlock (some p)
        = ("Blood Group: ".toList ++ (strOr p.blood_group ("Not Provided".toList)
            ++ ("\nAge: ".toList ++ (natOr p.age ("Not Provided".toList) ++ "\n".toList))))
          ++ ("Gender: ".toList ++ "Not Provided".toList) := by
      rw [profileBlock, hv, hs1]
      simp [List.append_assoc]
    rw [hT, e]
    exact hs_r _ _ _ (hasSub_self _)
  · intro hf
    apply nav_medical
    have hv : joinOr p.allergies (", ".toList) ("None reported".toList)
        = "None reported".toList := by
      rcases hf with h | h <;> simp [joinOr, h, sepJoin]
    have hT : ("Allergies: None reported".toList : Str)
        = "Allergies: ".toList ++ "None reported".toList := by decide
    have e : medicalBlock (some p)
        = ("Allergies: ".toList ++ "None reported".toList)
          ++ ("\nExisting Conditions: ".toList
            ++ (joinOr p.existing_conditions (", ".toList) ("None reported".toList)
            ++ ("\nFamily Doctor Email: ".toList
            ++ joinOr p.family_doctor_email (", ".toList) ("None registered".toList)))) := by
      rw [medicalBlock, hv]
      simp [List.append_assoc]
    rw [hT, e]
    exact hasSub_here _ _
  · intro hf
    apply nav_medical
    have hv : joinOr p.existing_conditions (", ".toList) ("None reported".toList)
        = "None reported".toList := by
      rcases hf with h | h <;> simp [joinOr, h, sepJoin]
    have hs1 : ("\nExisting Conditions: ".toList : Str)
        = "\n".toList ++ "Existing Conditions: ".toList := by decide
    have hT : ("Existing Conditions: None reported".toList : Str)
        = "Existing Conditions: ".toList ++ "None reported".toList := by decide
    have e : medicalBlock (some p)
        = ("Allergies: ".toList
            ++ (joinOr p.allergies (", ".toList) ("None reported".toList) ++ "\n".toList))
          ++ (("Existing Conditions: ".toList ++ "None reported".toList)
            ++ ("\nFamily Doctor Email: ".toList
            ++ joinOr p.family_doctor_email (", ".toList) ("None registered".toList))) := by
      rw [medicalBlock, hv, hs1]
      simp [List.append_assoc]
    rw [hT, e]
    exact hs_r _ _ _ (hasSub_here _ _)
  · intro hf
    apply nav_medical
    have hv : joinOr p.family_doctor_email (", ".toList) ("None registered".toList)
        = "None registered".toList := by
      rcases hf with h | h <;> simp [joinOr, h, sepJoin]
    have hs1 : ("\nFamily Doctor Email: ".toList : Str)
        = "\n".toList ++ "Family Doctor Email: ".toList := by decide
    have hT : ("Family Doctor Email: None registered".toList : Str)
        = "Family Doctor Email: ".toList ++ "None registered".toList := by decide
    have e : medicalBlock (some p)
        = ("Allergies: ".toList
            ++ (joinOr p.allergies (", ".toList) ("None reported".toList)
            ++ ("\nExisting Conditions: ".toList
            ++ (joinOr p.existing_conditions (", ".toList) ("None reported".toList)
            ++ "\n".toList))))
          ++ ("Family Doctor Email: ".toList ++ "None registered".toList) := by
      rw [medicalBlock, hv, hs1]
      simp [List.append_assoc]
    rw [hT, e]
    exact hs_r _ _ _ (hasSub_self _)
  · intro hmem hf
    apply nav_contacts
    have hline : hasSub ("Phone: Not provided".toList) (contactLine c) = true := by
      have hv : strOr c.phone ("Not provided".toList) = "Not provided".toList := by
        rcases hf with h | h <;> simp [strOr, h]
      have hs1 : (")\n    Phone: ".toList : Str)
          = ")\n    ".toList ++ "Phone: ".toList := by decide
      have hT : ("Phone: Not provided".toList : Str)
          = "Phone: ".toList ++ "Not provided".toList := by decide
      have e : contactLine c
          = ("- ".toList ++ (c.name ++ (" (".toList ++ (c.relation ++ ")\n    ".toList))))
            ++ (("Phone: ".toList ++ "Not provided".toList)
              ++ ("\n    Email: ".toList ++ rawOpt c.email)) := by
        rw [contactLine, hv, hs1]
        simp [List.append_assoc]
      rw [hT, e]
      exact hs_r _ _ _ (hasSub_here _ _)
    simp only [contactsStr]
    exact sepJoin_mem _ nl contactLine fam.emergency_contacts c hmem hline
  · intro hmem hf
    apply nav_contacts
    have hline : hasSub ("Email: undefined".toList) (contactLine c) = true := by
      have hv : rawOpt c.email = "undefined".toList := by simp [rawOpt, hf]
      have hs1 : ("\n    Email: ".toList : Str)
          = "\n    ".toList ++ "Email: ".toList := by decide
      have hT : ("Email: undefined".toList : Str)
          = "Email: ".toList ++ "undefined".toList := by decide
      have e : contactLine c
          = ("- ".toList ++ (c.name ++ (" (".toList ++ (c.relation
              ++ (")\n    Phone: ".toList
                ++ (strOr c.phone ("Not provided".toList) ++ "\n    ".toList))))))
            ++ ("Email: ".toList ++ "undefined".toList) := by
        rw [contactLine, hv, hs1]
        simp [List.append_assoc]
      rw [hT, e]
      exact hs_r _ _ _ (hasSub_self _)
    simp only [contactsStr]
    exact sepJoin_mem _ nl contactLine fam.emergency_contacts c hmem hline

def c6Con : ContactT := ⟨some ("1".toList), "mom".toList, "mother".toList, none, none⟩

def c6Fam : FamilyT := ⟨"smiths".toList, [c6Con]⟩

def c6Prof : ProfileT := ⟨none, none, none, none, none, none⟩

/-- C6 counterexample input: a contact without an email renders the raw text
"Email: undefined" in the report, and no placeholder string follows
"Email: " there. -/
theorem claim_C6_counterexample :
    hasSub ("Email: undefined".toList) (summaryText wUser (some wProf) [] c6Fam [] wNow) = true
    ∧ hasSub ("Email: Not Provided".toList)
        (summaryText wUser (some wProf) [] c6Fam [] wNow) = false
    ∧ hasSub ("Email: Not provided".toList)
        (summaryText wUser (some wProf) [] c6Fam [] wNow) = false
    ∧ hasSub ("Email: None reported".toList)
        (summaryText wUser (some wProf) [] c6Fam [] wNow) = false := by
  refine ⟨by decide, by decide, by decide, by decide⟩

theorem claim_C6_witness :
    hasSub ("Blood Group: Not Provided".toList)
        (summaryText wUser (some c6Prof) [] c6Fam [] wNow) = true
    ∧ hasSub ("Phone: Not provided".toList)
        (summaryText wUser (some wProf) [] c6Fam [] wNow) = true
    ∧ hasSub ("Email: undefined".toList)
        (summaryText wUser (some wProf) [] c6Fam [] wNow) = true := by
  have h := claim_C6 wUser [] c6Fam [] wNow (some wProf) c6Prof c6Con
  refine ⟨?_, ?_, ?_⟩
  · exact h.2.2.2.2.2.2.2.2.1 (Or.inl rfl)
  · exact h.2.2.2.2.2.2.2.2.2.2.2.2.2.2.1 (by decide) (Or.inl rfl)
  · exact h.2.2.2.2.2.2.2.2.2.2.2.2.2.2.2 (by decide) rfl

theorem claim_C9_witness :
    requestFn (FetchOutcome.okJson true 200 ("OK".toList) ⟨none⟩)
      = ⟨true, some ⟨none⟩, none⟩
    ∧ (requestFn (FetchOutcome.okJson false 404 ("Not Found".toList) ⟨none⟩)).success = false := by
  have h := claim_C9
  exact ⟨h.1 200 ("OK".toList) ⟨none⟩, (h.2.1 404 ("Not Found".toList) ⟨none⟩).1⟩
